import Mathlib

/-
  Verification development for the TaskMaster authentication subsystem.

  The Go sources are embedded shallowly:
  * Go strings are lists of characters (`Str`).  All data the auth core
    case-folds or classifies is ASCII (enforced by the repository's own
    regex validators), so the `unicode`/`strings` helpers are modelled by
    their ASCII restrictions and byte length coincides with rune count.
  * Timestamps are integers (seconds); `time.Duration` constants are the
    corresponding second counts.
  * bcrypt digests and HMAC signatures are modelled symbolically: a digest
    remembers the hashed password, a signature remembers the signing secret
    and the signed payload, and verification compares for equality.  This
    captures exactly the correctness contract the code relies on.
  * `uuid.New()` and `crypto/rand` token generation draw from a `nonce`
    counter threaded through the store, which yields fresh, pairwise
    distinct values.
  * The ent database is a list of users plus the append-only security-event
    journal; `Only` queries distinguish zero, one, and several matches.
-/

namespace Taskmaster

/-- Go strings, modelled as lists of characters. -/
abbrev Str := List Char

/-! ### ASCII character helpers (Go `unicode` / `strings`, ASCII fragment) -/

/-- Go `unicode.IsUpper`, ASCII fragment. -/
def isUpperCh (c : Char) : Bool := decide (65 ≤ c.toNat ∧ c.toNat ≤ 90)

/-- Go `unicode.IsLower`, ASCII fragment. -/
def isLowerCh (c : Char) : Bool := decide (97 ≤ c.toNat ∧ c.toNat ≤ 122)

/-- Go `unicode.IsDigit`, ASCII fragment. -/
def isDigitCh (c : Char) : Bool := decide (48 ≤ c.toNat ∧ c.toNat ≤ 57)

/-- Go `unicode.IsPunct`, ASCII fragment (printable, non-space,
    non-alphanumeric characters classified as punctuation). -/
def isPunctCh (c : Char) : Bool :=
  decide ((33 ≤ c.toNat ∧ c.toNat ≤ 35) ∨ (37 ≤ c.toNat ∧ c.toNat ≤ 42) ∨
    (44 ≤ c.toNat ∧ c.toNat ≤ 47) ∨ (58 ≤ c.toNat ∧ c.toNat ≤ 59) ∨
    (63 ≤ c.toNat ∧ c.toNat ≤ 64) ∨ (91 ≤ c.toNat ∧ c.toNat ≤ 93) ∨
    c.toNat = 95 ∨ c.toNat = 123 ∨ c.toNat = 125)

/-- Go `unicode.IsSymbol`, ASCII fragment. -/
def isSymbolCh (c : Char) : Bool :=
  decide (c.toNat = 36 ∨ c.toNat = 43 ∨ (60 ≤ c.toNat ∧ c.toNat ≤ 62) ∨
    c.toNat = 94 ∨ c.toNat = 96 ∨ c.toNat = 124 ∨ c.toNat = 126)

/-- Go `unicode.IsSpace`, ASCII fragment. -/
def isSpaceCh (c : Char) : Bool :=
  decide (c.toNat = 32 ∨ (9 ≤ c.toNat ∧ c.toNat ≤ 13))

/-- ASCII lower-casing of one character (Go `strings.ToLower`, pointwise). -/
def charToLower (c : Char) : Char :=
  if 65 ≤ c.toNat ∧ c.toNat ≤ 90 then Char.ofNat (c.toNat + 32) else c

/-- ASCII upper-casing of one character (Go `strings.ToUpper`, pointwise). -/
def charToUpper (c : Char) : Char :=
  if 97 ≤ c.toNat ∧ c.toNat ≤ 122 then Char.ofNat (c.toNat - 32) else c

/-- Go `strings.ToLower` (ASCII fragment). -/
def strToLower (s : Str) : Str := s.map charToLower

/-- Go `strings.ToUpper` (ASCII fragment). -/
def strToUpper (s : Str) : Str := s.map charToUpper

/-- Go `strings.TrimSpace` (ASCII fragment). -/
def trimSpace (s : Str) : Str :=
  ((s.dropWhile isSpaceCh).reverse.dropWhile isSpaceCh).reverse

/-- Go `strings.Split` with a one-character separator: the resulting list is
    always non-empty and has one part more than the number of separators. -/
def splitOnChar (sep : Char) : Str → List Str
  | [] => [[]]
  | c :: rest =>
    let r := splitOnChar sep rest
    if c = sep then [] :: r
    else
      match r with
      | [] => [[c]]
      | h :: t => (c :: h) :: t

/-! ### pkg/auth/password.go -/

/-- Errors of `ValidatePassword` (`ErrWeakPassword` with the message that
    names the missing character class). -/
inductive PasswordError
  | tooShort
  | noUpper
  | noLower
  | noNumber
  | noSpecial
deriving DecidableEq

/-- `auth.PasswordManager`. -/
structure PasswordManager where
  minLength : Nat
  requireUpper : Bool
  requireLower : Bool
  requireNumber : Bool
  requireSpecial : Bool
deriving DecidableEq

/-- `auth.NewPasswordManager`: the default settings.  Note that
    `requireSpecial` defaults to `false` in the source. -/
def NewPasswordManager : PasswordManager :=
  { minLength := 8
    requireUpper := true
    requireLower := true
    requireNumber := true
    requireSpecial := false }

/-- Character-class flags accumulated by the scanning loop of
    `ValidatePassword`. -/
structure ClassFlags where
  hasUpper : Bool
  hasLower : Bool
  hasNumber : Bool
  hasSpecial : Bool
deriving DecidableEq

/-- One step of `ValidatePassword`'s `for … switch` loop.  The `switch`
    takes the first matching case, exactly as in the source. -/
def scanChar (f : ClassFlags) (c : Char) : ClassFlags :=
  if isUpperCh c then { f with hasUpper := true }
  else if isLowerCh c then { f with hasLower := true }
  else if isDigitCh c then { f with hasNumber := true }
  else if isPunctCh c || isSymbolCh c then { f with hasSpecial := true }
  else f

/-- `PasswordManager.ValidatePassword`; `none` means the password passed. -/
def ValidatePassword (pm : PasswordManager) (password : Str) : Option PasswordError :=
  if password.length < pm.minLength then some .tooShort
  else
    let flags := password.foldl scanChar ⟨false, false, false, false⟩
    if pm.requireUpper && !flags.hasUpper then some .noUpper
    else if pm.requireLower && !flags.hasLower then some .noLower
    else if pm.requireNumber && !flags.hasNumber then some .noNumber
    else if pm.requireSpecial && !flags.hasSpecial then some .noSpecial
    else none

/-- Symbolic bcrypt digest: the digest of cost `cost` remembers the hashed
    plaintext, which is exactly the contract `CompareHashAndPassword`
    provides. -/
inductive HashVal
  | bcrypt (cost : Nat) (plain : Str)
deriving DecidableEq

/-- `PasswordManager.HashPassword`: validate strength first, then digest
    with cost 12. -/
def HashPassword (pm : PasswordManager) (password : Str) : Except PasswordError HashVal :=
  match ValidatePassword pm password with
  | some e => .error e
  | none => .ok (.bcrypt 12 password)

/-- `PasswordManager.ComparePassword` (`bcrypt.CompareHashAndPassword`
    returns nil exactly on a match). -/
def ComparePassword (hashed : HashVal) (password : Str) : Bool :=
  match hashed with
  | .bcrypt _ plain => plain = password

/-- Character class of the email local part in `ValidateEmail`'s regex
    `[a-zA-Z0-9._%+\-]`. -/
def isEmailLocalCh (c : Char) : Bool :=
  isUpperCh c || isLowerCh c || isDigitCh c ||
    decide (c.toNat = 46 ∨ c.toNat = 95 ∨ c.toNat = 37 ∨ c.toNat = 43 ∨ c.toNat = 45)

/-- Character class of the email domain in `ValidateEmail`'s regex
    `[a-zA-Z0-9.\-]`. -/
def isEmailDomainCh (c : Char) : Bool :=
  isUpperCh c || isLowerCh c || isDigitCh c || decide (c.toNat = 46 ∨ c.toNat = 45)

/-- Letter (`[a-zA-Z]`). -/
def isAlphaCh (c : Char) : Bool := isUpperCh c || isLowerCh c

/-- Membership in the language of `ValidateEmail`'s domain fragment
    `[a-zA-Z0-9.\-]+\.[a-zA-Z]\x7b2,\x7d`: the part after the last dot is
    alphabetic of length at least two, and something non-empty in the domain
    class precedes that dot. -/
def validEmailDomain (d : Str) : Bool :=
  let pre := (d.reverse.dropWhile isAlphaCh).reverse
  let tld := d.reverse.takeWhile isAlphaCh
  decide (2 ≤ tld.length) && decide (pre ≠ []) && pre.getLast? == some '.' &&
    (pre.dropLast ≠ []) && (pre.dropLast.all isEmailDomainCh)

/-- `auth.ValidateEmail`: the anchored regex
    `^[a-zA-Z0-9._%+\-]+@[a-zA-Z0-9.\-]+\.[a-zA-Z]\x7b2,\x7d$`
    plus the 255-character cap.  Because neither class contains `@`, a
    valid email splits at its unique `@`. -/
def ValidateEmail (email : Str) : Bool :=
  (match splitOnChar '@' email with
   | [l, d] => decide (l ≠ []) && l.all isEmailLocalCh && validEmailDomain d
   | _ => false) &&
  decide (email.length ≤ 255)

/-- Character class of `ValidateUsername`'s regex `[a-zA-Z0-9_\-]`. -/
def isUsernameCh (c : Char) : Bool :=
  isUpperCh c || isLowerCh c || isDigitCh c || decide (c.toNat = 95 ∨ c.toNat = 45)

/-- `auth.ValidateUsername`: length between 3 and 50, characters restricted
    to letters, digits, underscore and hyphen. -/
def ValidateUsername (username : Str) : Bool :=
  decide (3 ≤ username.length) && decide (username.length ≤ 50) &&
    username.all isUsernameCh

/-! ### internal/service/password_reset.go — maskEmail -/

/-- `maskEmail` from internal/service/password_reset.go: split on `@`; if
    the split does not have exactly two parts, return the input unchanged;
    otherwise star out the local part, keeping its first and last character
    when it is longer than two characters. -/
def maskEmail (email : Str) : Str :=
  let parts := splitOnChar '@' email
  if parts.length ≠ 2 then email
  else
    let username := parts.headD []
    let domain := (parts.drop 1).headD []
    if username.length ≤ 2 then
      List.replicate username.length '*' ++ '@' :: domain
    else
      username.take 1 ++ List.replicate (username.length - 2) '*' ++
        username.drop (username.length - 1) ++ '@' :: domain

/-! ### gRPC status codes -/

/-- The subset of `google.golang.org/grpc/codes` used by the service. -/
inductive GrpcCode
  | invalidArgument
  | unauthenticated
  | permissionDenied
  | notFound
  | alreadyExists
  | failedPrecondition
  | resourceExhausted
  | deadlineExceeded
  | internal
deriving DecidableEq

/-! ### pkg/security/event_types.go -/

/-- The `securityevent.EventType` ent enum. -/
inductive EntEventType
  | loginSuccess
  | loginFailed
  | passwordChanged
  | passwordResetRequested
  | passwordResetCompleted
  | emailVerificationSent
  | emailVerificationCompleted
  | accountLocked
  | accountUnlocked
  | securityAlert
  | suspiciousActivity
deriving DecidableEq

/-- The `securityevent.Severity` ent enum. -/
inductive EntSeverity
  | low
  | medium
  | high
  | critical
deriving DecidableEq

/-- The string constants of pkg/security/event_types.go. -/
def EventTypeLoginSuccess : Str := "login_success".toList

/-- Event-kind string constant. -/
def EventTypeLoginFailed : Str := "login_failed".toList

/-- Event-kind string constant. -/
def EventTypePasswordChanged : Str := "password_changed".toList

/-- Event-kind string constant. -/
def EventTypePasswordResetRequested : Str := "password_reset_requested".toList

/-- Event-kind string constant. -/
def EventTypePasswordResetCompleted : Str := "password_reset_completed".toList

/-- Event-kind string constant. -/
def EventTypeEmailVerificationSent : Str := "email_verification_sent".toList

/-- Event-kind string constant. -/
def EventTypeEmailVerificationCompleted : Str := "email_verification_completed".toList

/-- Event-kind string constant. -/
def EventTypeAccountLocked : Str := "account_locked".toList

/-- Event-kind string constant. -/
def EventTypeAccountUnlocked : Str := "account_unlocked".toList

/-- Event-kind string constant. -/
def EventTypeSecurityAlert : Str := "security_alert".toList

/-- Event-kind string constant. -/
def EventTypeSuspiciousActivity : Str := "suspicious_activity".toList

/-- Severity string constant. -/
def SeverityLow : Str := "low".toList

/-- Severity string constant. -/
def SeverityMedium : Str := "medium".toList

/-- Severity string constant. -/
def SeverityHigh : Str := "high".toList

/-- Severity string constant. -/
def SeverityCritical : Str := "critical".toList

/-- `security.ParseEventType`: converts the string-valued kind to the enum,
    rejecting unknown strings. -/
def ParseEventType (eventType : Str) : Option EntEventType :=
  if eventType = EventTypeLoginSuccess then some .loginSuccess
  else if eventType = EventTypeLoginFailed then some .loginFailed
  else if eventType = EventTypePasswordChanged then some .passwordChanged
  else if eventType = EventTypePasswordResetRequested then some .passwordResetRequested
  else if eventType = EventTypePasswordResetCompleted then some .passwordResetCompleted
  else if eventType = EventTypeEmailVerificationSent then some .emailVerificationSent
  else if eventType = EventTypeEmailVerificationCompleted then
    some .emailVerificationCompleted
  else if eventType = EventTypeAccountLocked then some .accountLocked
  else if eventType = EventTypeAccountUnlocked then some .accountUnlocked
  else if eventType = EventTypeSecurityAlert then some .securityAlert
  else if eventType = EventTypeSuspiciousActivity then some .suspiciousActivity
  else none

/-- `security.ParseSeverity`. -/
def ParseSeverity (severity : Str) : Option EntSeverity :=
  if severity = SeverityLow then some .low
  else if severity = SeverityMedium then some .medium
  else if severity = SeverityHigh then some .high
  else if severity = SeverityCritical then some .critical
  else none

/-! ### pkg/auth/jwt.go -/

/-- The custom JWT claims.  Account identifiers (`UserID` and the
    registered `Subject`, both the same value in `generateToken`) are the
    numeric value of the uuid.  `jti` is the fresh `uuid.New()` id. -/
structure TokenClaims where
  userID : Nat
  email : Str
  username : Str
  role : Str
  typ : Str
  jti : Nat
  issuer : Str
  subject : Nat
  issuedAt : Int
  expiresAt : Int
  notBefore : Int
deriving DecidableEq

/-- Symbolic HMAC signature: remembers the signing secret and the signed
    payload; verification is equality, which is the contract HMAC-SHA
    provides. -/
structure HmacSig where
  secret : Str
  payload : TokenClaims
deriving DecidableEq

/-- A serialized signed token: header algorithm, claims and signature. -/
structure SignedToken where
  alg : Str
  claims : TokenClaims
  sig : HmacSig
deriving DecidableEq

/-- The HMAC family accepted by the `jwt.SigningMethodHMAC` check of the
    keyfunc in `validateToken`. -/
def hmacAlgs : List Str := ["HS256".toList, "HS384".toList, "HS512".toList]

/-- `auth.TokenManager`. -/
structure TokenManager where
  accessSecret : Str
  refreshSecret : Str
  accessDuration : Int
  refreshDuration : Int
  issuer : Str
deriving DecidableEq

/-- `TokenManager.generateToken`: builds the claims and signs with HS256.
    `jti` stands for the fresh `uuid.New()` value. -/
def generateToken (tm : TokenManager) (userID : Nat) (email username role tokenType : Str)
    (secret : Str) (duration : Int) (now : Int) (jti : Nat) : SignedToken :=
  let claims : TokenClaims :=
    { userID := userID
      email := email
      username := username
      role := role
      typ := tokenType
      jti := jti
      issuer := tm.issuer
      subject := userID
      issuedAt := now
      expiresAt := now + duration
      notBefore := now }
  { alg := "HS256".toList, claims := claims, sig := ⟨secret, claims⟩ }

/-- `TokenManager.GenerateTokenPair`: mints the access and the refresh
    token (with distinct fresh `jti`s) and reports the access TTL. -/
def GenerateTokenPair (tm : TokenManager) (userID : Nat) (email username role : Str)
    (now : Int) (jtiA jtiR : Nat) : SignedToken × SignedToken × Int :=
  (generateToken tm userID email username role ("access".toList) tm.accessSecret
      tm.accessDuration now jtiA,
   generateToken tm userID email username role ("refresh".toList) tm.refreshSecret
      tm.refreshDuration now jtiR,
   tm.accessDuration)

/-- `TokenManager.validateToken`: the keyfunc rejects any non-HMAC signing
    method, then the signature is checked against the expected secret, the
    claim type against the expectation, and the expiry against the clock.
    `none` models every error return. -/
def validateToken (tok : SignedToken) (expectedType : Str) (secret : Str)
    (now : Int) : Option TokenClaims :=
  if ¬ tok.alg ∈ hmacAlgs then none
  else if tok.sig ≠ ⟨secret, tok.claims⟩ then none
  else if tok.claims.typ ≠ expectedType then none
  else if tok.claims.expiresAt < now then none
  else some tok.claims

/-- `TokenManager.ValidateAccessToken`. -/
def ValidateAccessToken (tm : TokenManager) (tok : SignedToken) (now : Int) :
    Option TokenClaims :=
  validateToken tok ("access".toList) tm.accessSecret now

/-- `TokenManager.ValidateRefreshToken`. -/
def ValidateRefreshToken (tm : TokenManager) (tok : SignedToken) (now : Int) :
    Option TokenClaims :=
  validateToken tok ("refresh".toList) tm.refreshSecret now

/-! ### The persisted state: users, journal, mail capture -/

/-- The ent `User` entity (the fields the auth core reads or writes). -/
structure User where
  id : Nat
  email : Str
  username : Str
  passwordHash : HashVal
  firstName : Str
  lastName : Str
  role : Str
  isActive : Bool
  emailVerified : Bool
  passwordChangedAt : Option Int
  emailNotificationsEnabled : Bool
  securityNotificationsEnabled : Bool
  preferences : List (Str × Str)
  refreshToken : Option SignedToken
  refreshTokenExpiresAt : Option Int
  lastLogin : Option Int
  lastLoginIP : Str
  failedLoginAttempts : Nat
  accountLockedUntil : Option Int
  emailVerificationToken : Option Str
  emailVerificationExpiresAt : Option Int
  emailVerificationAttempts : Nat
  passwordResetToken : Option Str
  passwordResetExpiresAt : Option Int
  passwordResetAttempts : Nat
  passwordResetAt : Option Int
deriving DecidableEq

/-- The ent `SecurityEvent` entity (journal entry). -/
structure SecurityEvent where
  userID : Option Nat
  eventType : EntEventType
  severity : EntSeverity
  description : Str
  ipAddress : Str
  userAgent : Str
deriving DecidableEq

/-- One record of the capture-only mail service. -/
structure SentEmail where
  template : Str
  userId : Nat
  toAddr : Str
  token : Str
deriving DecidableEq

/-- The world state: the user table, the append-only journal, the mail
    capture, and the counter feeding `uuid.New()` / `crypto/rand`. -/
structure Store where
  users : List User
  events : List SecurityEvent
  sentEmails : List SentEmail
  nonce : Nat
deriving DecidableEq

/-- Result of an ent `Only(ctx)` query: exactly one match, no match
    (`ent.IsNotFound`), or several matches (a generic error). -/
inductive OnlyResult
  | found (u : User)
  | notFound
  | multiple
deriving DecidableEq

/-- `Only` over the user table. -/
def onlyMatch (p : User → Bool) (users : List User) : OnlyResult :=
  match users.filter p with
  | [] => .notFound
  | [u] => .found u
  | _ :: _ :: _ => .multiple

/-- Persisting a mutated user row (`foundUser.Update()…Save` /
    `UpdateOneID`): rewrites the row with the same id. -/
def updateUser (s : Store) (u1 : User) : Store :=
  { s with users := s.users.map (fun v => if v.id = u1.id then u1 else v) }

/-- `client.User.Get` by primary key. -/
def lookupById (s : Store) (uid : Nat) : Option User :=
  s.users.find? (fun u => decide (u.id = uid))

/-- A fresh hex token from `crypto/rand` (drawn from the nonce counter;
    always non-empty). -/
def genToken (n : Nat) : Str := 't' :: Nat.toDigits 10 n

/-- `SecurityService.LogSecurityEvent`: parse the string kind and severity;
    on an unknown kind or severity return an error *without* appending.
    Every caller in the service layer ignores the returned error, so a
    parse failure silently drops the journal entry. -/
def logSecurityEventStr (s : Store) (userID : Option Nat)
    (eventType severity desc ip ua : Str) : Store :=
  match ParseEventType eventType, ParseSeverity severity with
  | some et, some sev =>
      { s with events := s.events ++
          [{ userID := userID, eventType := et, severity := sev,
             description := desc, ipAddress := ip, userAgent := ua }] }
  | _, _ => s

/-- `config.SecurityConfig` (the fields the embedded handlers read). -/
structure SecurityConfig where
  maxLoginAttempts : Nat
  accountLockoutDuration : Int
  sessionTimeoutDuration : Int
  requireEmailVerification : Bool
  enableSecurityNotifications : Bool
deriving DecidableEq

/-- The 7-day refresh-token lifetime used by Register/Login/RefreshToken. -/
def sessionRefreshTTL : Int := 7 * 24 * 3600

/-! ### internal/service/password_reset.go -/

/-- `PasswordResetTokenDuration` (1 hour, in seconds). -/
def passwordResetTokenDuration : Int := 3600

/-- `MaxPasswordResetAttempts`. -/
def maxPasswordResetAttempts : Nat := 5

/-- `PasswordResetRateLimit` (15 minutes, in seconds). -/
def passwordResetRateLimit : Int := 900

/-- Tail of `RequestPasswordReset`: issue a fresh token, bump the attempt
    counter, dispatch the mail (capture-only: always succeeds) and journal
    `password_reset_requested`. -/
def requestResetIssueToken (s : Store) (u : User) (now : Int) (ip ua : Str) :
    Except GrpcCode Unit × Store :=
  let token := genToken s.nonce
  let s1 : Store := { s with nonce := s.nonce + 1 }
  let u1 : User := { u with
    passwordResetToken := some token
    passwordResetExpiresAt := some (now + passwordResetTokenDuration)
    passwordResetAttempts := u.passwordResetAttempts + 1 }
  let s2 := updateUser s1 u1
  let s3 : Store := { s2 with sentEmails := s2.sentEmails ++
    [{ template := "password_reset".toList, userId := u.id, toAddr := u.email,
       token := token }] }
  let s4 := logSecurityEventStr s3 (some u.id) EventTypePasswordResetRequested
    SeverityLow ("Password reset email sent".toList) ip ua
  (.ok (), s4)

/-- Middle of `RequestPasswordReset`: the daily-attempt guard.  The
    attempt-limit journal entry uses the kind string
    `password_reset_attempts_exceeded`, which `ParseEventType` rejects. -/
def requestResetAfterRateLimit (s : Store) (u : User) (now : Int) (ip ua : Str) :
    Except GrpcCode Unit × Store :=
  if maxPasswordResetAttempts ≤ u.passwordResetAttempts then
    if (match u.passwordResetExpiresAt with
        | some e => decide (now - e < 24 * 3600)
        | none => false) then
      let s1 := logSecurityEventStr s (some u.id)
        ("password_reset_attempts_exceeded".toList) ("high".toList)
        ("Password reset attempts limit exceeded".toList) ip ua
      (.error .resourceExhausted, s1)
    else
      let u1 : User := { u with passwordResetAttempts := 0 }
      requestResetIssueToken (updateUser s u1) u1 now ip ua
  else requestResetIssueToken s u now ip ua

/-- `PasswordResetService.RequestPasswordReset`.  In the user-not-found
    branch the source calls its security logging helper with the kind
    string `password_reset_attempted_invalid_email`; that kind is unknown
    to `ParseEventType`, so the journal append fails (the error is ignored)
    and the call still returns success. -/
def RequestPasswordReset (s : Store) (emailIn : Str) (now : Int) (ip ua : Str) :
    Except GrpcCode Unit × Store :=
  if emailIn = [] then (.error .invalidArgument, s)
  else
    let email := strToLower (trimSpace emailIn)
    match onlyMatch (fun u => decide (u.email = email) && u.isActive) s.users with
    | .notFound =>
        let s1 := logSecurityEventStr s none
          ("password_reset_attempted_invalid_email".toList) ("medium".toList)
          ("Password reset attempted for non-existent email: ".toList ++ email) ip ua
        (.ok (), s1)
    | .multiple => (.error .internal, s)
    | .found u =>
      match u.passwordResetExpiresAt with
      | some expiresAt =>
        if now < expiresAt - passwordResetTokenDuration + passwordResetRateLimit then
          let s1 := logSecurityEventStr s (some u.id) EventTypeSuspiciousActivity
            SeverityMedium ("Password reset request rate limited".toList) ip ua
          (.error .resourceExhausted, s1)
        else requestResetAfterRateLimit s u now ip ua
      | none => requestResetAfterRateLimit s u now ip ua

/-- `PasswordResetService.ResetPassword`. -/
def ResetPassword (pm : PasswordManager) (s : Store) (token newPassword : Str)
    (now : Int) (ip ua : Str) : Except GrpcCode Unit × Store :=
  if token = [] then (.error .invalidArgument, s)
  else if newPassword = [] then (.error .invalidArgument, s)
  else if (ValidatePassword pm newPassword).isSome then (.error .invalidArgument, s)
  else
    match onlyMatch (fun u => decide (u.passwordResetToken = some token) && u.isActive)
        s.users with
    | .notFound =>
        let s1 := logSecurityEventStr s none EventTypeSuspiciousActivity
          SeverityMedium ("Invalid password reset token used".toList) ip ua
        (.error .notFound, s1)
    | .multiple => (.error .internal, s)
    | .found u =>
      if (match u.passwordResetExpiresAt with
          | some e => decide (e < now)
          | none => false) then
        let s1 := logSecurityEventStr s (some u.id) EventTypeSuspiciousActivity
          SeverityMedium ("Expired password reset token used".toList) ip ua
        (.error .deadlineExceeded, s1)
      else
        match HashPassword pm newPassword with
        | .error _ => (.error .invalidArgument, s)
        | .ok h =>
          let u1 : User := { u with
            passwordHash := h
            passwordChangedAt := some now
            passwordResetAt := some now
            passwordResetToken := none
            passwordResetExpiresAt := none
            passwordResetAttempts := 0
            refreshToken := none
            refreshTokenExpiresAt := none
            failedLoginAttempts := 0
            accountLockedUntil := none }
          let s1 := updateUser s u1
          let s2 : Store := if u.securityNotificationsEnabled then
              { s1 with sentEmails := s1.sentEmails ++
                [{ template := "password_changed".toList, userId := u.id,
                   toAddr := u.email, token := [] }] }
            else s1
          let s3 := logSecurityEventStr s2 (some u.id)
            EventTypePasswordResetCompleted SeverityLow
            ("Password reset completed".toList) ip ua
          (.ok (), s3)

/-! ### internal/service/email_verification.go -/

/-- `EmailVerificationTokenDuration` (24 hours, in seconds). -/
def emailVerificationTokenDuration : Int := 24 * 3600

/-- `MaxEmailVerificationAttempts`. -/
def maxEmailVerificationAttempts : Nat := 5

/-- Shared tail of `SendVerificationEmail` and `ResendVerificationEmail`:
    issue a fresh token, bump the attempt counter, dispatch the mail
    (capture-only) and journal `email_verification_sent`. -/
def issueVerificationToken (s : Store) (u : User) (now : Int) (ip ua : Str) :
    Except GrpcCode Unit × Store :=
  let token := genToken s.nonce
  let s1 : Store := { s with nonce := s.nonce + 1 }
  let u1 : User := { u with
    emailVerificationToken := some token
    emailVerificationExpiresAt := some (now + emailVerificationTokenDuration)
    emailVerificationAttempts := u.emailVerificationAttempts + 1 }
  let s2 := updateUser s1 u1
  let s3 : Store := { s2 with sentEmails := s2.sentEmails ++
    [{ template := "verification".toList, userId := u.id, toAddr := u.email,
       token := token }] }
  let s4 := logSecurityEventStr s3 (some u.id) EventTypeEmailVerificationSent
    SeverityLow ("Email verification sent".toList) ip ua
  (.ok (), s4)

/-- `EmailVerificationService.SendVerificationEmail`. -/
def SendVerificationEmailSvc (s : Store) (uid : Nat) (now : Int) (ip ua : Str) :
    Except GrpcCode Unit × Store :=
  match lookupById s uid with
  | none => (.error .notFound, s)
  | some u =>
    if u.emailVerified then (.error .failedPrecondition, s)
    else if maxEmailVerificationAttempts ≤ u.emailVerificationAttempts then
      (.error .resourceExhausted, s)
    else issueVerificationToken s u now ip ua

/-- `EmailVerificationService.ResendVerificationEmail`: like `Send` but the
    rate limit comes first — the resend is refused while
    `now < expiresAt − TTL + 1h`, i.e. within one hour of issuance. -/
def ResendVerificationEmail (s : Store) (uid : Nat) (now : Int) (ip ua : Str) :
    Except GrpcCode Unit × Store :=
  match lookupById s uid with
  | none => (.error .notFound, s)
  | some u =>
    if u.emailVerified then (.error .failedPrecondition, s)
    else if (match u.emailVerificationExpiresAt with
             | some e => decide (now < e - emailVerificationTokenDuration + 3600)
             | none => false) then
      (.error .resourceExhausted, s)
    else if maxEmailVerificationAttempts ≤ u.emailVerificationAttempts then
      (.error .resourceExhausted, s)
    else issueVerificationToken s u now ip ua

/-! ### internal/service/auth_service.go -/

/-- The possible outcomes of `Login`: success, the permission-denied
    response that carries `AccountLocked`/`LockedUntil`, or a bare status
    error. -/
inductive LoginOut
  | ok (userId : Nat) (accessToken refreshTok : SignedToken) (expiresIn : Int)
      (emailVerificationRequired : Bool)
  | lockedDenied (lockedUntil : Int)
  | err (code : GrpcCode)
deriving DecidableEq

/-- `Login` after the lock check: active check, credential check with
    failed-attempt accounting and lockout, and the success path. -/
def loginActive (cfg : SecurityConfig) (tm : TokenManager) (s : Store) (u : User)
    (loginID reqPassword : Str) (now : Int) (ip ua : Str) : LoginOut × Store :=
  if ¬ u.isActive then (.err .permissionDenied, s)
  else if ¬ ComparePassword u.passwordHash reqPassword then
    let failedAttempts := u.failedLoginAttempts + 1
    if cfg.maxLoginAttempts ≤ failedAttempts then
      let lockUntil := now + cfg.accountLockoutDuration
      let s1 := logSecurityEventStr s (some u.id) EventTypeAccountLocked
        SeverityHigh ("Account locked: max login attempts exceeded".toList) ip ua
      let s2 := updateUser s1 { u with
        failedLoginAttempts := failedAttempts
        accountLockedUntil := some lockUntil }
      (.lockedDenied lockUntil, s2)
    else
      let s1 := updateUser s { u with failedLoginAttempts := failedAttempts }
      let s2 := logSecurityEventStr s1 none EventTypeLoginFailed SeverityMedium
        ("Login failed for ".toList ++ loginID ++ ": invalid password".toList) ip ua
      (.err .unauthenticated, s2)
  else
    let pair := GenerateTokenPair tm u.id u.email u.username u.role now s.nonce (s.nonce + 1)
    let s1 : Store := { s with nonce := s.nonce + 2 }
    let u1 : User := { u with
      refreshToken := some pair.2.1
      refreshTokenExpiresAt := some (now + sessionRefreshTTL)
      lastLogin := some now
      lastLoginIP := ip
      failedLoginAttempts := 0
      accountLockedUntil := none }
    let s2 := updateUser s1 u1
    let s3 := logSecurityEventStr s2 (some u.id) EventTypeLoginSuccess SeverityLow
      ("User successfully logged in".toList) ip ua
    (.ok u.id pair.1 pair.2.1 pair.2.2 (!u.emailVerified && cfg.requireEmailVerification), s3)

/-- `AuthService.Login`: lookup by case-folded email or username, the
    already-locked and inactive permission-denied branches (which journal
    nothing), the failed-credential branch, and the success path. -/
def Login (cfg : SecurityConfig) (tm : TokenManager) (s : Store)
    (reqEmail reqPassword : Str) (now : Int) (ip ua : Str) : LoginOut × Store :=
  if reqEmail = [] ∨ reqPassword = [] then (.err .invalidArgument, s)
  else
    let loginID := strToLower reqEmail
    match onlyMatch (fun u => decide (u.email = loginID) || decide (u.username = loginID))
        s.users with
    | .notFound =>
        let s1 := logSecurityEventStr s none EventTypeLoginFailed SeverityMedium
          ("Login failed for ".toList ++ loginID ++ ": user not found".toList) ip ua
        (.err .unauthenticated, s1)
    | .multiple => (.err .internal, s)
    | .found u =>
      match u.accountLockedUntil with
      | some t =>
        if now < t then (.lockedDenied t, s)
        else loginActive cfg tm s u loginID reqPassword now ip ua
      | none => loginActive cfg tm s u loginID reqPassword now ip ua

/-- A refresh-token request string: empty, not a well-formed JWT, or a
    signed token. -/
inductive TokenStr
  | empty
  | malformed
  | signed (tok : SignedToken)
deriving DecidableEq

/-- Successful `RefreshToken` response. -/
structure RefreshOk where
  accessToken : SignedToken
  refreshTok : SignedToken
  expiresIn : Int
deriving DecidableEq

/-- `AuthService.RefreshToken`: validate the presented refresh token, look
    up the account whose *stored* refresh token equals the presented one,
    check stored expiry and session timeout, then rotate to a freshly
    minted pair. -/
def RefreshTokenOp (cfg : SecurityConfig) (tm : TokenManager) (s : Store)
    (req : TokenStr) (now : Int) : Except GrpcCode RefreshOk × Store :=
  match req with
  | .empty => (.error .invalidArgument, s)
  | .malformed => (.error .unauthenticated, s)
  | .signed tok =>
    match ValidateRefreshToken tm tok now with
    | none => (.error .unauthenticated, s)
    | some claims =>
      match onlyMatch (fun u => decide (u.id = claims.userID) &&
          decide (u.refreshToken = some tok) && u.isActive) s.users with
      | .notFound => (.error .unauthenticated, s)
      | .multiple => (.error .internal, s)
      | .found u =>
        if (match u.refreshTokenExpiresAt with
            | some e => decide (e < now)
            | none => false) then
          (.error .unauthenticated, s)
        else if (match u.lastLogin with
                 | some ll => decide (cfg.sessionTimeoutDuration < now - ll)
                 | none => false) then
          let s1 := updateUser s { u with refreshToken := none, refreshTokenExpiresAt := none }
          (.error .unauthenticated, s1)
        else
          let pair := GenerateTokenPair tm u.id u.email u.username u.role now s.nonce (s.nonce + 1)
          let s1 : Store := { s with nonce := s.nonce + 2 }
          let u1 : User := { u with
            refreshToken := some pair.2.1
            refreshTokenExpiresAt := some (now + sessionRefreshTTL) }
          let s2 := updateUser s1 u1
          (.ok ⟨pair.1, pair.2.1, pair.2.2⟩, s2)

/-- `RegisterRequest`. -/
structure RegisterRequest where
  email : Str
  username : Str
  password : Str
  firstName : Str
  lastName : Str
  sendVerificationEmail : Bool
deriving DecidableEq

/-- Outcome of `Register`. -/
inductive RegisterOut
  | ok (userId : Nat) (accessToken refreshTok : SignedToken) (expiresIn : Int)
      (emailVerificationRequired : Bool)
  | err (code : GrpcCode)
deriving DecidableEq

/-- `AuthService.Register`: validate email/username/password, refuse
    duplicates of either case-folded identifier, hash, insert with
    defaults, mint a token pair, persist the refresh token for 7 days, and
    optionally attempt the best-effort verification send. -/
def Register (cfg : SecurityConfig) (tm : TokenManager) (pm : PasswordManager)
    (s : Store) (req : RegisterRequest) (now : Int) (ip ua : Str) :
    RegisterOut × Store :=
  if ¬ ValidateEmail req.email then (.err .invalidArgument, s)
  else if ¬ ValidateUsername req.username then (.err .invalidArgument, s)
  else if req.password = [] then (.err .invalidArgument, s)
  else if s.users.any (fun u => decide (u.email = strToLower req.email) ||
      decide (u.username = strToLower req.username)) then (.err .alreadyExists, s)
  else
    match HashPassword pm req.password with
    | .error _ => (.err .invalidArgument, s)
    | .ok h =>
      let uid := s.nonce
      let newUser : User := {
        id := uid
        email := strToLower req.email
        username := strToLower req.username
        passwordHash := h
        firstName := req.firstName
        lastName := req.lastName
        role := "user".toList
        isActive := true
        emailVerified := false
        passwordChangedAt := some now
        emailNotificationsEnabled := true
        securityNotificationsEnabled := cfg.enableSecurityNotifications
        preferences := []
        refreshToken := none
        refreshTokenExpiresAt := none
        lastLogin := none
        lastLoginIP := []
        failedLoginAttempts := 0
        accountLockedUntil := none
        emailVerificationToken := none
        emailVerificationExpiresAt := none
        emailVerificationAttempts := 0
        passwordResetToken := none
        passwordResetExpiresAt := none
        passwordResetAttempts := 0
        passwordResetAt := none }
      let s1 : Store := { s with users := s.users ++ [newUser], nonce := s.nonce + 1 }
      let pair := GenerateTokenPair tm uid newUser.email newUser.username newUser.role
        now s1.nonce (s1.nonce + 1)
      let s2 : Store := { s1 with nonce := s1.nonce + 2 }
      let u1 : User := { newUser with
        refreshToken := some pair.2.1
        refreshTokenExpiresAt := some (now + sessionRefreshTTL) }
      let s3 := updateUser s2 u1
      if req.sendVerificationEmail || cfg.requireEmailVerification then
        match SendVerificationEmailSvc s3 uid now ip ua with
        | (.ok _, s4) => (.ok uid pair.1 pair.2.1 pair.2.2 true, s4)
        | (.error _, s4) => (.ok uid pair.1 pair.2.1 pair.2.2 false, s4)
      else (.ok uid pair.1 pair.2.1 pair.2.2 false, s3)

/-- The row `Register` inserts before persisting the refresh token, named
    so that the registration shape can be reasoned about. -/
def regNewUser (cfg : SecurityConfig) (s : Store) (req : RegisterRequest)
    (now : Int) : User :=
  { id := s.nonce
    email := strToLower req.email
    username := strToLower req.username
    passwordHash := .bcrypt 12 req.password
    firstName := req.firstName
    lastName := req.lastName
    role := "user".toList
    isActive := true
    emailVerified := false
    passwordChangedAt := some now
    emailNotificationsEnabled := true
    securityNotificationsEnabled := cfg.enableSecurityNotifications
    preferences := []
    refreshToken := none
    refreshTokenExpiresAt := none
    lastLogin := none
    lastLoginIP := []
    failedLoginAttempts := 0
    accountLockedUntil := none
    emailVerificationToken := none
    emailVerificationExpiresAt := none
    emailVerificationAttempts := 0
    passwordResetToken := none
    passwordResetExpiresAt := none
    passwordResetAttempts := 0
    passwordResetAt := none }

/-- The token pair `Register` mints for the new account. -/
def regPair (tm : TokenManager) (s : Store) (req : RegisterRequest) (now : Int) :
    SignedToken × SignedToken × Int :=
  GenerateTokenPair tm s.nonce (strToLower req.email) (strToLower req.username)
    ("user".toList) now (s.nonce + 1) (s.nonce + 1 + 1)

/-- The inserted row after `Register` persists the minted refresh token. -/
def regInserted (cfg : SecurityConfig) (tm : TokenManager) (s : Store)
    (req : RegisterRequest) (now : Int) : User :=
  { regNewUser cfg s req now with
    refreshToken := some (regPair tm s req now).2.1
    refreshTokenExpiresAt := some (now + sessionRefreshTTL) }

/-- The store after the insert, the token mint and the refresh-token
    persist of a successful `Register`, before the optional verification
    send. -/
def regStore3 (cfg : SecurityConfig) (tm : TokenManager) (s : Store)
    (req : RegisterRequest) (now : Int) : Store :=
  updateUser
    { s with
      users := s.users ++ [regNewUser cfg s req now]
      nonce := s.nonce + 1 + 2 }
    (regInserted cfg tm s req now)

/-! ### internal/middleware context and the uuid-consuming handlers -/

/-- Hexadecimal digit (both cases), as accepted by `uuid.Parse`. -/
def isHexDigit (c : Char) : Bool :=
  isDigitCh c || decide (97 ≤ c.toNat ∧ c.toNat ≤ 102) ||
    decide (65 ≤ c.toNat ∧ c.toNat ≤ 70)

/-- Value of a hexadecimal digit. -/
def hexVal (c : Char) : Nat :=
  if c.toNat ≤ 57 then c.toNat - 48
  else if c.toNat ≤ 70 then c.toNat - 55
  else c.toNat - 87

/-- The canonical 36-character `8-4-4-4-12` uuid layout. -/
def parseCanonicalUUID (s : Str) : Option Nat :=
  if s.length = 36 ∧
      (List.range 36).all (fun i =>
        if i = 8 ∨ i = 13 ∨ i = 18 ∨ i = 23 then decide (s.getD i ' ' = '-')
        else isHexDigit (s.getD i ' ')) then
    some ((s.filter (fun c => decide (c ≠ '-'))).foldl (fun a c => a * 16 + hexVal c) 0)
  else none

/-- `uuid.Parse` / `uuid.MustParse`'s accepted shapes: canonical,
    `urn:uuid:` prefixed, curly-braced, and 32-character bare hex; the
    parsed value is the 128-bit number (`none` models the parse error on
    which `MustParse` panics). -/
def parseUUID (s : Str) : Option Nat :=
  if s.length = 36 + 9 then
    if strToLower (s.take 9) = "urn:uuid:".toList then parseCanonicalUUID (s.drop 9)
    else none
  else if s.length = 36 + 2 then
    if s.headD ' ' = Char.ofNat 123 ∧ s.getLastD ' ' = Char.ofNat 125 then
      parseCanonicalUUID (s.drop 1).dropLast
    else none
  else if s.length = 36 then parseCanonicalUUID s
  else if s.length = 32 then
    if s.all isHexDigit then some (s.foldl (fun a c => a * 16 + hexVal c) 0) else none
  else none

/-- The request context after the interceptor chain: the authentication
    interceptor stores the token's `user_id` claim as an *unvalidated
    string*. -/
structure Ctx where
  userID : Option Str
  userRole : Option Str
  ipAddress : Str
  userAgent : Str
deriving DecidableEq

/-- Outcome of a handler that may panic (`uuid.MustParse` on a string that
    does not parse). -/
inductive HOut (α : Type)
  | ok (a : α)
  | err (code : GrpcCode)
  | panicked
deriving DecidableEq

/-- `AuthService.GetMe`: context check, then `uuid.MustParse` on the raw
    context value, then the user lookup.  (The verification-status lookup
    afterwards is best-effort and cannot change the outcome.) -/
def GetMe (s : Store) (ctx : Ctx) : HOut User :=
  match ctx.userID with
  | none => .err .unauthenticated
  | some uidStr =>
    match parseUUID uidStr with
    | none => .panicked
    | some uid =>
      match lookupById s uid with
      | none => .err .notFound
      | some u => .ok u

/-- `UpdateProfileRequest`. -/
structure UpdateProfileRequest where
  firstName : Str
  lastName : Str
  preferences : List (Str × Str)
  emailNotificationsEnabled : Bool
  securityNotificationsEnabled : Bool
deriving DecidableEq

/-- `AuthService.UpdateProfile`: context check, `uuid.MustParse`, then the
    mutation of names, preferences and the two notification toggles. -/
def UpdateProfile (s : Store) (ctx : Ctx) (req : UpdateProfileRequest) :
    HOut User × Store :=
  match ctx.userID with
  | none => (.err .unauthenticated, s)
  | some uidStr =>
    match parseUUID uidStr with
    | none => (.panicked, s)
    | some uid =>
      match lookupById s uid with
      | none => (.err .notFound, s)
      | some u =>
        let u1 : User := { u with
          firstName := if req.firstName ≠ [] then req.firstName else u.firstName
          lastName := if req.lastName ≠ [] then req.lastName else u.lastName
          preferences := if 0 < req.preferences.length then req.preferences
            else u.preferences
          emailNotificationsEnabled := req.emailNotificationsEnabled
          securityNotificationsEnabled := req.securityNotificationsEnabled }
        (.ok u1, updateUser s u1)

/-- `ChangePasswordRequest`. -/
structure ChangePasswordRequest where
  currentPassword : Str
  newPassword : Str
  notifyViaEmail : Bool
deriving DecidableEq

/-- `AuthService.ChangePassword`: context check, request validation, then
    `uuid.MustParse`, the current-password check, strength validation via
    `HashPassword`, and the update that also revokes the stored refresh
    token. -/
def ChangePassword (pm : PasswordManager) (s : Store) (ctx : Ctx)
    (req : ChangePasswordRequest) (now : Int) : HOut Unit × Store :=
  match ctx.userID with
  | none => (.err .unauthenticated, s)
  | some uidStr =>
    if req.currentPassword = [] ∨ req.newPassword = [] then (.err .invalidArgument, s)
    else
      match parseUUID uidStr with
      | none => (.panicked, s)
      | some uid =>
        match lookupById s uid with
        | none => (.err .notFound, s)
        | some u =>
          if ¬ ComparePassword u.passwordHash req.currentPassword then
            (.err .invalidArgument, s)
          else
            match HashPassword pm req.newPassword with
            | .error _ => (.err .invalidArgument, s)
            | .ok h =>
              let u1 : User := { u with
                passwordHash := h
                passwordChangedAt := some now
                refreshToken := none
                refreshTokenExpiresAt := none }
              let s1 := updateUser s u1
              let s2 := logSecurityEventStr s1 (some u.id) EventTypePasswordChanged
                SeverityLow ("User password changed".toList) ctx.ipAddress ctx.userAgent
              (.ok (), s2)

deriving instance DecidableEq for Except

/-! ### Invariants of stores built by the system, and concrete fixtures -/

/-- Stores reachable through the service layer: every persisted email
    contains `@` (it passed `ValidateEmail`), no username contains `@`
    (it passed `ValidateUsername`), and every id was drawn from the nonce
    counter. -/
def WellFormedStore (s : Store) : Prop :=
  ∀ u ∈ s.users, '@' ∈ u.email ∧ '@' ∉ u.username ∧ u.id < s.nonce

/-- The empty database. -/
def emptyStore : Store := ⟨[], [], [], 0⟩

/-- A token manager fixture. -/
def sampleTm : TokenManager :=
  ⟨"acc-secret".toList, "ref-secret".toList, 900, 604800, "taskmaster".toList⟩

/-- A security-config fixture (defaults: 5 attempts, 15 min lockout, 30 day
    session timeout, verification not required). -/
def sampleCfg : SecurityConfig := ⟨5, 900, 2592000, false, true⟩

/-- A fully populated user row used as the base of the concrete fixtures. -/
def baseUser : User :=
  { id := 1
    email := "e@x.co".toList
    username := "eu".toList
    passwordHash := .bcrypt 12 ("Password1".toList)
    firstName := []
    lastName := []
    role := "user".toList
    isActive := true
    emailVerified := false
    passwordChangedAt := none
    emailNotificationsEnabled := true
    securityNotificationsEnabled := true
    preferences := []
    refreshToken := none
    refreshTokenExpiresAt := none
    lastLogin := none
    lastLoginIP := []
    failedLoginAttempts := 0
    accountLockedUntil := none
    emailVerificationToken := none
    emailVerificationExpiresAt := none
    emailVerificationAttempts := 0
    passwordResetToken := none
    passwordResetExpiresAt := none
    passwordResetAttempts := 0
    passwordResetAt := none }

/-- C3 fixture: a user whose account is locked until t = 5000. -/
def c3User : User :=
  { baseUser with
    email := "alice@e.com".toList
    username := "alice".toList
    passwordHash := .bcrypt 12 ("Pw0rd!aa".toList)
    failedLoginAttempts := 3
    accountLockedUntil := some 5000 }

/-- C3 fixture store. -/
def c3Store : Store := ⟨[c3User], [], [], 9⟩

/-- C3 fixture: an active, unlocked user one failed attempt below the
    lockout threshold. -/
def c3TrigUser : User :=
  { baseUser with failedLoginAttempts := 4 }

/-- C3 fixture store for the lockout-triggering attempt. -/
def c3TrigStore : Store := ⟨[c3TrigUser], [], [], 9⟩

/-- C4 fixture: a stored refresh token issued earlier (jti 0 < nonce). -/
def c4R1 : SignedToken :=
  generateToken sampleTm 1 ("e@x.co".toList) ("eu".toList) ("user".toList)
    ("refresh".toList) sampleTm.refreshSecret sampleTm.refreshDuration 0 0

/-- C4 fixture: a locked user with a pending reset token and a session. -/
def c4User : User :=
  { baseUser with
    passwordResetToken := some ("rtok".toList)
    passwordResetExpiresAt := some 10000
    passwordResetAttempts := 2
    refreshToken := some c4R1
    refreshTokenExpiresAt := some 999999
    failedLoginAttempts := 2
    accountLockedUntil := some 50 }

/-- C4 fixture store. -/
def c4Store : Store := ⟨[c4User], [], [], 3⟩

/-- The row as rewritten by the successful C4 reset. -/
def c4PostUser : User :=
  { c4User with
    passwordHash := .bcrypt 12 ("NewPw0rd1".toList)
    passwordChangedAt := some 100
    passwordResetAt := some 100
    passwordResetToken := none
    passwordResetExpiresAt := none
    passwordResetAttempts := 0
    refreshToken := none
    refreshTokenExpiresAt := none
    failedLoginAttempts := 0
    accountLockedUntil := none }

/-- The store after the successful C4 reset. -/
def c4PostStore : Store :=
  logSecurityEventStr
    { updateUser c4Store c4PostUser with
      sentEmails := (updateUser c4Store c4PostUser).sentEmails ++
        [{ template := "password_changed".toList, userId := c4User.id,
           toAddr := c4User.email, token := [] }] }
    (some c4User.id) EventTypePasswordResetCompleted SeverityLow
    ("Password reset completed".toList) ("1.2.3.4".toList) ("ua".toList)

/-- C5 fixture: the stored refresh token R1 (jti 0 < nonce 1). -/
def c5R1 : SignedToken :=
  generateToken sampleTm 1 ("e@x.co".toList) ("eu".toList) ("user".toList)
    ("refresh".toList) sampleTm.refreshSecret sampleTm.refreshDuration 0 0

/-- C5 fixture: a logged-in user holding R1. -/
def c5User : User :=
  { baseUser with
    refreshToken := some c5R1
    refreshTokenExpiresAt := some 999999
    lastLogin := some 5 }

/-- C5 fixture store. -/
def c5Store : Store := ⟨[c5User], [], [], 1⟩

/-- The pair minted by the C5 rotation (jtis 1 and 2, at t = 10). -/
def c5Pair : SignedToken × SignedToken × Int :=
  GenerateTokenPair sampleTm 1 ("e@x.co".toList) ("eu".toList) ("user".toList) 10 1 2

/-- The response of the C5 rotation. -/
def c5Out : RefreshOk := ⟨c5Pair.1, c5Pair.2.1, c5Pair.2.2⟩

/-- The store after the C5 rotation. -/
def c5PostStore : Store :=
  updateUser { c5Store with nonce := 3 }
    { c5User with
      refreshToken := some c5Pair.2.1
      refreshTokenExpiresAt := some (10 + sessionRefreshTTL) }

/-- C7 fixture: an unverified user whose verification token was issued two
    hours ago (expiry 22 h away, TTL 24 h). -/
def c7User : User :=
  { baseUser with
    emailVerificationToken := some ("tok".toList)
    emailVerificationExpiresAt := some 79200
    emailVerificationAttempts := 1 }

/-- C7 fixture store. -/
def c7Store : Store := ⟨[c7User], [], [], 5⟩

/-- C7 witness fixture: a token issued just now (expiry the full TTL away). -/
def c7bUser : User :=
  { baseUser with
    emailVerificationToken := some ("tok".toList)
    emailVerificationExpiresAt := some 86400
    emailVerificationAttempts := 1 }

/-- C7 witness fixture store. -/
def c7bStore : Store := ⟨[c7bUser], [], [], 5⟩

/-- C10 fixture: a context whose `user_id` value is not a uuid. -/
def c10Ctx : Ctx :=
  ⟨some ("not-a-uuid".toList), some ("user".toList), "1.2.3.4".toList, "ua".toList⟩

/-- C6 fixture: a registration request with mixed-case identifiers. -/
def c6Req : RegisterRequest :=
  { email := "Al@ex.com".toList
    username := "AlUser".toList
    password := "Password1".toList
    firstName := []
    lastName := []
    sendVerificationEmail := false }

/-- The row `Register` inserts for `c6Req` on the empty store. -/
def c6NewUser : User :=
  { id := 0
    email := strToLower c6Req.email
    username := strToLower c6Req.username
    passwordHash := .bcrypt 12 c6Req.password
    firstName := c6Req.firstName
    lastName := c6Req.lastName
    role := "user".toList
    isActive := true
    emailVerified := false
    passwordChangedAt := some 0
    emailNotificationsEnabled := true
    securityNotificationsEnabled := sampleCfg.enableSecurityNotifications
    preferences := []
    refreshToken := none
    refreshTokenExpiresAt := none
    lastLogin := none
    lastLoginIP := []
    failedLoginAttempts := 0
    accountLockedUntil := none
    emailVerificationToken := none
    emailVerificationExpiresAt := none
    emailVerificationAttempts := 0
    passwordResetToken := none
    passwordResetExpiresAt := none
    passwordResetAttempts := 0
    passwordResetAt := none }

/-- The pair minted by the C6 registration (jtis 1 and 2, at t = 0). -/
def c6Pair : SignedToken × SignedToken × Int :=
  GenerateTokenPair sampleTm 0 (strToLower c6Req.email) (strToLower c6Req.username)
    ("user".toList) 0 1 2

/-- The store after the C6 registration. -/
def c6PostStore : Store :=
  updateUser ⟨[c6NewUser], [], [], 3⟩
    { c6NewUser with
      refreshToken := some c6Pair.2.1
      refreshTokenExpiresAt := some (0 + sessionRefreshTTL) }

/-! ### Supporting lemmas for the character scan and the split -/

theorem not_lower_of_upper (c : Char) (h : isUpperCh c = true) : isLowerCh c = false := by
  simp only [isUpperCh, decide_eq_true_eq] at h
  simp only [isLowerCh, decide_eq_false_iff_not]
  omega

theorem not_upper_of_lower (c : Char) (h : isLowerCh c = true) : isUpperCh c = false := by
  simp only [isLowerCh, decide_eq_true_eq] at h
  simp only [isUpperCh, decide_eq_false_iff_not]
  omega

theorem not_upper_of_digit (c : Char) (h : isDigitCh c = true) : isUpperCh c = false := by
  simp only [isDigitCh, decide_eq_true_eq] at h
  simp only [isUpperCh, decide_eq_false_iff_not]
  omega

theorem not_lower_of_digit (c : Char) (h : isDigitCh c = true) : isLowerCh c = false := by
  simp only [isDigitCh, decide_eq_true_eq] at h
  simp only [isLowerCh, decide_eq_false_iff_not]
  omega

/-- The password scanning loop, solved in closed form.  The guards record
    that the `switch` only reaches a case when the earlier cases failed. -/
theorem foldl_scan_spec (p : Str) (f : ClassFlags) :
    p.foldl scanChar f =
      ⟨f.hasUpper || p.any isUpperCh,
       f.hasLower || p.any (fun c => !isUpperCh c && isLowerCh c),
       f.hasNumber || p.any (fun c => !isUpperCh c && !isLowerCh c && isDigitCh c),
       f.hasSpecial || p.any (fun c =>
         !isUpperCh c && !isLowerCh c && !isDigitCh c && (isPunctCh c || isSymbolCh c))⟩ := by
  induction p generalizing f with
  | nil => simp
  | cons c p ih =>
    rw [List.foldl_cons, ih]
    by_cases h1 : isUpperCh c <;> by_cases h2 : isLowerCh c <;>
      by_cases h3 : isDigitCh c <;> by_cases h4 : (isPunctCh c || isSymbolCh c) = true <;>
      simp [scanChar, h1, h2, h3, h4, Bool.or_assoc]

theorem guard_lower_pointwise (c : Char) :
    (!isUpperCh c && isLowerCh c) = isLowerCh c := by
  cases h : isLowerCh c
  · simp
  · simp [not_upper_of_lower c h]

theorem guard_digit_pointwise (c : Char) :
    (!isUpperCh c && !isLowerCh c && isDigitCh c) = isDigitCh c := by
  cases h : isDigitCh c
  · simp
  · simp [not_upper_of_digit c h, not_lower_of_digit c h]

theorem splitOnChar_length (sep : Char) (s : Str) :
    (splitOnChar sep s).length = s.count sep + 1 := by
  induction s with
  | nil => simp [splitOnChar]
  | cons c s ih =>
    by_cases h : c = sep
    · simp [splitOnChar, h, List.count_cons, ih]
    · cases hr : splitOnChar sep s with
      | nil => rw [hr] at ih; simp at ih
      | cons x xs =>
        rw [hr] at ih
        simp only [splitOnChar, if_neg h, hr, List.length_cons] at *
        have hcount : (c :: s).count sep = s.count sep := by
          simp [List.count_cons, h]
        rw [hcount]
        omega

/-! ### Claim C1 — default password policy -/

/-- C1 counterexample: the password `Abcdefg1` contains no punctuation or
    symbol character at all, yet the default password manager accepts it,
    refuting the claim that the default policy requires a fourth character
    class. -/
theorem c1_counterexample :
    ValidatePassword NewPasswordManager ("Abcdefg1".toList) = none ∧
    ("Abcdefg1".toList).all (fun c => !(isPunctCh c || isSymbolCh c)) = true := by
  constructor
  · decide
  · decide

/-- C1 (amended): a password is accepted by the default password manager's
    `ValidatePassword` (and hence by `HashPassword`) exactly when it has
    length at least 8 and contains an uppercase letter, a lowercase letter
    and a digit; the punctuation/symbol class is *not* required because
    `NewPasswordManager` sets `requireSpecial` to `false`. -/
theorem c1_default_policy_characterization (p : Str) :
    (ValidatePassword NewPasswordManager p = none ↔
      (8 ≤ p.length ∧ p.any isUpperCh = true ∧
        p.any isLowerCh = true ∧ p.any isDigitCh = true)) ∧
    (HashPassword NewPasswordManager p = .ok (.bcrypt 12 p) ↔
      ValidatePassword NewPasswordManager p = none) := by
  constructor
  · have hscan := foldl_scan_spec p ⟨false, false, false, false⟩
    have hlow : p.any (fun c => !isUpperCh c && isLowerCh c) = p.any isLowerCh := by
      have : (fun c => !isUpperCh c && isLowerCh c) = isLowerCh :=
        funext guard_lower_pointwise
      rw [this]
    have hdig : p.any (fun c => !isUpperCh c && !isLowerCh c && isDigitCh c)
        = p.any isDigitCh := by
      have : (fun c => !isUpperCh c && !isLowerCh c && isDigitCh c) = isDigitCh :=
        funext guard_digit_pointwise
      rw [this]
    simp only [ValidatePassword, NewPasswordManager, hscan, hlow, hdig]
    by_cases hl : p.length < 8 <;> by_cases hu : p.any isUpperCh <;>
      by_cases hlo : p.any isLowerCh <;> by_cases hd : p.any isDigitCh <;>
      simp [hl, hu, hlo, hd] <;> omega
  · unfold HashPassword
    cases h : ValidatePassword NewPasswordManager p <;> simp [h]

/-! ### Claim C8 — maskEmail on inputs without exactly one `@` -/

/-- C8: when the input does not contain exactly one `@`, `maskEmail`
    returns it completely unchanged, because `strings.Split` then yields a
    number of parts different from two. -/
theorem c8_maskEmail_non_single_at (s : Str) (h : s.count '@' ≠ 1) :
    maskEmail s = s := by
  have hlen := splitOnChar_length '@' s
  have h2 : (splitOnChar '@' s).length ≠ 2 := by omega
  simp [maskEmail, h2]

/-- C8 witness: a concrete address with two `@` separators is echoed
    verbatim. -/
theorem c8_witness :
    ("a@b@c".toList).count '@' ≠ 1 ∧ maskEmail ("a@b@c".toList) = "a@b@c".toList :=
  ⟨by decide, c8_maskEmail_non_single_at ("a@b@c".toList) (by decide)⟩

/-- Sanity check of the masking branch against the repository's own test
    vector `user@example.com ↦ u**r@example.com`. -/
theorem maskEmail_test_vector :
    maskEmail ("user@example.com".toList) = "u**r@example.com".toList := by decide


/-! ### Claim C9 — non-HMAC algorithms are always rejected -/

/-- C9: for every token whose header algorithm is not an HMAC variant
    (e.g. `none` or an RSA algorithm), both `ValidateAccessToken` and
    `ValidateRefreshToken` fail, whatever the claims are: the keyfunc in
    `validateToken` refuses any signing method other than
    `jwt.SigningMethodHMAC`, so the success branch is unreachable. -/
theorem c9_non_hmac_rejected (tm : TokenManager) (tok : SignedToken) (now : Int)
    (h : ¬ tok.alg ∈ hmacAlgs) :
    ValidateAccessToken tm tok now = none ∧ ValidateRefreshToken tm tok now = none := by
  constructor <;> simp [ValidateAccessToken, ValidateRefreshToken, validateToken, h]

/-- C9 witness: a concrete `alg = none` token carrying perfectly ordinary
    claims is rejected by both validators. -/
theorem c9_witness :
    ValidateAccessToken ⟨"a".toList, "r".toList, 900, 604800, "taskmaster".toList⟩
      ⟨"none".toList,
       ⟨7, "e".toList, "u".toList, "user".toList, "access".toList, 0,
        "taskmaster".toList, 7, 0, 900, 0⟩,
       ⟨"a".toList,
        ⟨7, "e".toList, "u".toList, "user".toList, "access".toList, 0,
         "taskmaster".toList, 7, 0, 900, 0⟩⟩⟩ 10 = none ∧
    ValidateRefreshToken ⟨"a".toList, "r".toList, 900, 604800, "taskmaster".toList⟩
      ⟨"none".toList,
       ⟨7, "e".toList, "u".toList, "user".toList, "access".toList, 0,
        "taskmaster".toList, 7, 0, 900, 0⟩,
       ⟨"a".toList,
        ⟨7, "e".toList, "u".toList, "user".toList, "access".toList, 0,
         "taskmaster".toList, 7, 0, 900, 0⟩⟩⟩ 10 = none :=
  c9_non_hmac_rejected _ _ 10 (by decide)

/-! ### State-bookkeeping lemmas -/

theorem updateUser_events (s : Store) (u : User) : (updateUser s u).events = s.events := rfl

theorem updateUser_nonce (s : Store) (u : User) : (updateUser s u).nonce = s.nonce := rfl

theorem updateUser_sentEmails (s : Store) (u : User) :
    (updateUser s u).sentEmails = s.sentEmails := rfl

theorem updateUser_users (s : Store) (u : User) :
    (updateUser s u).users = s.users.map (fun v => if v.id = u.id then u else v) := rfl

theorem logStr_users (s : Store) (uid : Option Nat) (et sev d i a : Str) :
    (logSecurityEventStr s uid et sev d i a).users = s.users := by
  unfold logSecurityEventStr
  cases ParseEventType et <;> cases ParseSeverity sev <;> rfl

theorem logStr_nonce (s : Store) (uid : Option Nat) (et sev d i a : Str) :
    (logSecurityEventStr s uid et sev d i a).nonce = s.nonce := by
  unfold logSecurityEventStr
  cases ParseEventType et <;> cases ParseSeverity sev <;> rfl

theorem logStr_loginFailed_eval (s : Store) (uid : Option Nat) (d i a : Str) :
    logSecurityEventStr s uid EventTypeLoginFailed SeverityMedium d i a
      = { s with events := s.events ++ [⟨uid, .loginFailed, .medium, d, i, a⟩] } := rfl

theorem logStr_loginSuccess_eval (s : Store) (uid : Option Nat) (d i a : Str) :
    logSecurityEventStr s uid EventTypeLoginSuccess SeverityLow d i a
      = { s with events := s.events ++ [⟨uid, .loginSuccess, .low, d, i, a⟩] } := rfl

theorem logStr_accountLocked_eval (s : Store) (uid : Option Nat) (d i a : Str) :
    logSecurityEventStr s uid EventTypeAccountLocked SeverityHigh d i a
      = { s with events := s.events ++ [⟨uid, .accountLocked, .high, d, i, a⟩] } := rfl

theorem logStr_unknownKind_resetAttempted (s : Store) (uid : Option Nat) (d i a : Str) :
    logSecurityEventStr s uid ("password_reset_attempted_invalid_email".toList)
      ("medium".toList) d i a = s := rfl

/-! ### Claim C2 — password-reset request for an unknown address -/

/-- C2 (code bug): on a store with no active account for the address,
    `RequestPasswordReset("nobody@nowhere.com")` returns success, but the
    journal stays *empty*: the not-found branch logs the kind string
    `password_reset_attempted_invalid_email`, which `ParseEventType`
    rejects, so no entry — in particular no `suspicious_activity` entry —
    is ever appended. -/
theorem c2_unknown_email_silent_no_journal :
    (RequestPasswordReset emptyStore ("nobody@nowhere.com".toList) 1000
        ("1.2.3.4".toList) ("ua".toList)).1 = .ok () ∧
    (RequestPasswordReset emptyStore ("nobody@nowhere.com".toList) 1000
        ("1.2.3.4".toList) ("ua".toList)).2.events = [] := by
  exact ⟨rfl, rfl⟩

/-! ### Claim C7 — verification resend rate limit -/

/-- C7 counterexample: a verification token issued two hours ago (expiry
    22 h away with a 24 h TTL).  Two hours is well below TTL − 1 h, so the
    claim demands resource-exhausted, yet `ResendVerificationEmail`
    succeeds: the code's guard `now < expiry − TTL + 1h` only covers the
    first hour after issuance. -/
theorem c7_counterexample :
    ((0 : Int) - (79200 - emailVerificationTokenDuration) = 7200) ∧
    ((7200 : Int) < emailVerificationTokenDuration - 3600) ∧
    (ResendVerificationEmail c7Store 1 0 ("1.2.3.4".toList) ("ua".toList)).1 = .ok () := by
  refine ⟨by decide, by decide, ?_⟩
  rfl

/-- C7 (amended): for an unverified account with a pending verification
    token, the resend is rejected with resource-exhausted exactly when the
    token was issued less than one hour ago (`now < expiry − TTL + 1h`);
    once that window has elapsed it is permitted provided the attempt
    counter is below the maximum, and rejected with resource-exhausted for
    the attempt cap otherwise. -/
theorem c7_resend_window (s : Store) (uid : Nat) (now : Int) (ip ua : Str)
    (u : User) (e : Int)
    (hu : lookupById s uid = some u)
    (hver : u.emailVerified = false)
    (hexp : u.emailVerificationExpiresAt = some e) :
    (now < e - emailVerificationTokenDuration + 3600 →
      (ResendVerificationEmail s uid now ip ua).1 = .error .resourceExhausted) ∧
    (e - emailVerificationTokenDuration + 3600 ≤ now →
      u.emailVerificationAttempts < maxEmailVerificationAttempts →
      (ResendVerificationEmail s uid now ip ua).1 = .ok ()) ∧
    (e - emailVerificationTokenDuration + 3600 ≤ now →
      maxEmailVerificationAttempts ≤ u.emailVerificationAttempts →
      (ResendVerificationEmail s uid now ip ua).1 = .error .resourceExhausted) := by
  refine ⟨fun h => ?_, fun h1 h2 => ?_, fun h1 h2 => ?_⟩
  · simp [ResendVerificationEmail, hu, hver, hexp, h]
  · have hlt : ¬ (now < e - emailVerificationTokenDuration + 3600) := by
      simp only [emailVerificationTokenDuration] at h1 ⊢
      omega
    have hatt : ¬ (maxEmailVerificationAttempts ≤ u.emailVerificationAttempts) := by omega
    simp [ResendVerificationEmail, hu, hver, hexp, hlt, hatt, issueVerificationToken]
  · have hlt : ¬ (now < e - emailVerificationTokenDuration + 3600) := by
      simp only [emailVerificationTokenDuration] at h1 ⊢
      omega
    simp [ResendVerificationEmail, hu, hver, hexp, hlt, h2]

/-- C7 witness: a token issued just now is rate-limited. -/
theorem c7_witness :
    (ResendVerificationEmail c7bStore 1 0 ("1.2.3.4".toList) ("ua".toList)).1
      = .error .resourceExhausted :=
  (c7_resend_window c7bStore 1 0 ("1.2.3.4".toList) ("ua".toList) c7bUser 86400
    (by decide) (by decide) (by decide)).1 (by decide)

/-! ### Claim C3 — journaling of Login outcomes -/

theorem loginActive_journal (cfg : SecurityConfig) (tm : TokenManager) (s : Store)
    (u : User) (loginID reqPassword : Str) (now : Int) (ip ua : Str) :
    (∀ uid a rt e v,
      (loginActive cfg tm s u loginID reqPassword now ip ua).1 = .ok uid a rt e v →
      ∃ ev ∈ (loginActive cfg tm s u loginID reqPassword now ip ua).2.events.drop
          s.events.length, ev.eventType = .loginSuccess) ∧
    ((loginActive cfg tm s u loginID reqPassword now ip ua).1 = .err .unauthenticated →
      ∃ ev ∈ (loginActive cfg tm s u loginID reqPassword now ip ua).2.events.drop
          s.events.length, ev.eventType = .loginFailed) ∧
    (∀ t, (loginActive cfg tm s u loginID reqPassword now ip ua).1 = .lockedDenied t →
      ((loginActive cfg tm s u loginID reqPassword now ip ua).2.events = s.events ∨
        ∃ ev ∈ (loginActive cfg tm s u loginID reqPassword now ip ua).2.events.drop
          s.events.length, ev.eventType = .accountLocked)) ∧
    ((loginActive cfg tm s u loginID reqPassword now ip ua).1 = .err .permissionDenied →
      (loginActive cfg tm s u loginID reqPassword now ip ua).2.events = s.events) := by
  unfold loginActive
  by_cases hact : u.isActive = true
  · by_cases hcmp : ComparePassword u.passwordHash reqPassword = true
    · simp [hact, hcmp, logStr_loginSuccess_eval, updateUser_events, List.drop_left]
    · by_cases hmax : cfg.maxLoginAttempts ≤ u.failedLoginAttempts + 1
      · simp [hact, hcmp, hmax, logStr_accountLocked_eval, updateUser_events,
          List.drop_left]
      · simp [hact, hcmp, hmax, logStr_loginFailed_eval, updateUser_events,
          List.drop_left]
  · simp [hact]

theorem login_journal_by_outcome (cfg : SecurityConfig) (tm : TokenManager) (s : Store)
    (reqEmail reqPassword : Str) (now : Int) (ip ua : Str) :
    (∀ uid a rt e v,
      (Login cfg tm s reqEmail reqPassword now ip ua).1 = .ok uid a rt e v →
      ∃ ev ∈ (Login cfg tm s reqEmail reqPassword now ip ua).2.events.drop
          s.events.length, ev.eventType = .loginSuccess) ∧
    ((Login cfg tm s reqEmail reqPassword now ip ua).1 = .err .unauthenticated →
      ∃ ev ∈ (Login cfg tm s reqEmail reqPassword now ip ua).2.events.drop
          s.events.length, ev.eventType = .loginFailed) ∧
    ((Login cfg tm s reqEmail reqPassword now ip ua).1 = .err .permissionDenied →
      (Login cfg tm s reqEmail reqPassword now ip ua).2.events = s.events) := by
  unfold Login
  by_cases hne : (reqEmail = [] ∨ reqPassword = [])
  · simp [hne]
  · cases honly : onlyMatch (fun u => decide (u.email = strToLower reqEmail) ||
        decide (u.username = strToLower reqEmail)) s.users with
    | notFound => simp [hne, honly, logStr_loginFailed_eval, List.drop_left]
    | multiple => simp [hne, honly]
    | found u =>
      cases hlock : u.accountLockedUntil with
      | some t =>
        by_cases hnow : now < t
        · simp [hne, honly, hlock, hnow]
        · simp only [hne, honly, hlock, hnow, if_neg, if_false, ite_false]
          have h := loginActive_journal cfg tm s u (strToLower reqEmail)
            reqPassword now ip ua
          exact ⟨h.1, h.2.1, h.2.2.2⟩
      | none =>
        simp only [hne, honly, hlock]
        have h := loginActive_journal cfg tm s u (strToLower reqEmail)
          reqPassword now ip ua
        exact ⟨h.1, h.2.1, h.2.2.2⟩

/-- C3 (amended): a completed `Login` journals an entry with kind in
    {login-success, login-failed, account-locked} for the success,
    wrong-password (including the lockout-triggering call, which journals
    an account-locked entry) and unknown-identifier outcomes; but the
    *already-locked* and *inactive-account* permission-denied branches
    return without writing any journal entry at all — the already-locked
    branch even leaves the whole store untouched. -/
theorem c3_login_journal_amended (cfg : SecurityConfig) (tm : TokenManager) (s : Store)
    (reqEmail reqPassword : Str) (now : Int) (ip ua : Str) :
    (∀ uid a rt e v,
      (Login cfg tm s reqEmail reqPassword now ip ua).1 = .ok uid a rt e v →
      ∃ ev ∈ (Login cfg tm s reqEmail reqPassword now ip ua).2.events.drop
          s.events.length, ev.eventType = .loginSuccess) ∧
    ((Login cfg tm s reqEmail reqPassword now ip ua).1 = .err .unauthenticated →
      ∃ ev ∈ (Login cfg tm s reqEmail reqPassword now ip ua).2.events.drop
          s.events.length, ev.eventType = .loginFailed) ∧
    (∀ u t, onlyMatch (fun w => decide (w.email = strToLower reqEmail) ||
        decide (w.username = strToLower reqEmail)) s.users = .found u →
      u.accountLockedUntil = some t → now < t →
      ¬ (reqEmail = [] ∨ reqPassword = []) →
      Login cfg tm s reqEmail reqPassword now ip ua = (.lockedDenied t, s)) ∧
    (∀ u, onlyMatch (fun w => decide (w.email = strToLower reqEmail) ||
        decide (w.username = strToLower reqEmail)) s.users = .found u →
      (u.accountLockedUntil = none ∨
        ∃ t, u.accountLockedUntil = some t ∧ ¬ now < t) →
      u.isActive = true →
      ComparePassword u.passwordHash reqPassword = false →
      cfg.maxLoginAttempts ≤ u.failedLoginAttempts + 1 →
      ¬ (reqEmail = [] ∨ reqPassword = []) →
      (Login cfg tm s reqEmail reqPassword now ip ua).1
        = .lockedDenied (now + cfg.accountLockoutDuration) ∧
      ∃ ev ∈ (Login cfg tm s reqEmail reqPassword now ip ua).2.events.drop
          s.events.length, ev.eventType = .accountLocked) ∧
    ((Login cfg tm s reqEmail reqPassword now ip ua).1 = .err .permissionDenied →
      (Login cfg tm s reqEmail reqPassword now ip ua).2.events = s.events) := by
  refine ⟨(login_journal_by_outcome cfg tm s reqEmail reqPassword now ip ua).1,
    (login_journal_by_outcome cfg tm s reqEmail reqPassword now ip ua).2.1, ?_, ?_,
    (login_journal_by_outcome cfg tm s reqEmail reqPassword now ip ua).2.2⟩
  · intro u t honly hlock hnow hne
    unfold Login
    rw [if_neg hne]
    simp only [honly, hlock]
    rw [if_pos hnow]
  · intro u honly hlockc hact hcmp hmax hne
    have hgoal : Login cfg tm s reqEmail reqPassword now ip ua
        = loginActive cfg tm s u (strToLower reqEmail) reqPassword now ip ua := by
      unfold Login
      rw [if_neg hne]
      rcases hlockc with hlock | ⟨t, hlock, hnow⟩
      · simp only [honly, hlock]
      · simp only [honly, hlock]
        rw [if_neg hnow]
    rw [hgoal]
    unfold loginActive
    simp [hact, hcmp, hmax, logStr_accountLocked_eval, updateUser_events,
      List.drop_left]

/-- C3 counterexample: a `Login` against an already-locked account (locked
    until t = 5000, called at t = 100) completes with the locked
    permission-denied outcome, yet the journal is left completely empty —
    no entry of any kind is written — refuting the claim that *every*
    completed `Login` outcome writes a journal entry. -/
theorem c3_counterexample :
    (Login sampleCfg sampleTm c3Store ("alice@e.com".toList) ("Pw0rd!aa".toList) 100
        ("1.2.3.4".toList) ("ua".toList)).1 = .lockedDenied 5000 ∧
    (Login sampleCfg sampleTm c3Store ("alice@e.com".toList) ("Pw0rd!aa".toList) 100
        ("1.2.3.4".toList) ("ua".toList)).2.events = [] := by
  exact ⟨rfl, rfl⟩

/-- C3 witness: the already-locked fixture returns the stored lock with the
    whole store (hence the journal) untouched, while an unlocked user one
    failed attempt below the cap who presents a wrong password is locked
    out and an account-locked entry is journaled. -/
theorem c3_witness :
    Login sampleCfg sampleTm c3Store ("alice@e.com".toList) ("Pw0rd!aa".toList) 100
        ("1.2.3.4".toList) ("ua".toList) = (.lockedDenied 5000, c3Store) ∧
    ((Login sampleCfg sampleTm c3TrigStore ("e@x.co".toList) ("Wrongpw1".toList) 100
        ("1.2.3.4".toList) ("ua".toList)).1
      = .lockedDenied (100 + sampleCfg.accountLockoutDuration) ∧
     ∃ ev ∈ (Login sampleCfg sampleTm c3TrigStore ("e@x.co".toList)
        ("Wrongpw1".toList) 100 ("1.2.3.4".toList) ("ua".toList)).2.events.drop
        c3TrigStore.events.length, ev.eventType = .accountLocked) :=
  ⟨(c3_login_journal_amended sampleCfg sampleTm c3Store ("alice@e.com".toList)
      ("Pw0rd!aa".toList) 100 ("1.2.3.4".toList) ("ua".toList)).2.2.1 c3User 5000
      (by decide) (by decide) (by decide) (by decide),
   (c3_login_journal_amended sampleCfg sampleTm c3TrigStore ("e@x.co".toList)
      ("Wrongpw1".toList) 100 ("1.2.3.4".toList) ("ua".toList)).2.2.2.1 c3TrigUser
      (by decide) (Or.inl (by decide)) (by decide) (by decide) (by decide)
      (by decide)⟩

/-! ### Query and update lemmas shared by C4/C5/C6 -/

theorem onlyMatch_found_mem (p : User → Bool) (l : List User) (u : User)
    (h : onlyMatch p l = .found u) : u ∈ l ∧ p u = true := by
  unfold onlyMatch at h
  cases hf : l.filter p with
  | nil => rw [hf] at h; cases h
  | cons x xs =>
    cases xs with
    | nil =>
      rw [hf] at h
      have hx : x = u := by cases h; rfl
      have hmem : u ∈ l.filter p := by rw [hf, hx]; exact List.mem_singleton_self u
      exact ⟨(List.mem_filter.mp hmem).1, (List.mem_filter.mp hmem).2⟩
    | cons y ys => rw [hf] at h; cases h

theorem onlyMatch_notFound_of (p : User → Bool) (l : List User)
    (h : ∀ v ∈ l, ¬ p v = true) : onlyMatch p l = .notFound := by
  unfold onlyMatch
  rw [List.filter_eq_nil_iff.mpr h]

theorem validateToken_some (tok : SignedToken) (ty sec : Str) (now : Int)
    (c : TokenClaims) (h : validateToken tok ty sec now = some c) : c = tok.claims := by
  unfold validateToken at h
  split at h
  · cases h
  · split at h
    · cases h
    · split at h
      · cases h
      · split at h
        · cases h
        · exact (Option.some.inj h).symm

theorem exists_updated_mem (l : List User) (u uN : User) (hu : u ∈ l)
    (hid : u.id = uN.id) : uN ∈ l.map (fun v => if v.id = uN.id then uN else v) :=
  List.mem_map.mpr ⟨u, hu, by simp [hid]⟩

theorem ite_sentEmails_users (c : Prop) [Decidable c] (x : Store) (e : List SentEmail) :
    (if c then { x with sentEmails := e } else x).users = x.users := by
  split <;> rfl

/-- A refresh request is refused with unauthenticated whenever no user row
    with the token's subject id stores the presented token. -/
theorem refresh_unauth_of_no_match (cfg : SecurityConfig) (tm : TokenManager)
    (s2 : Store) (uidTarget : Nat) (R : SignedToken) (now2 : Int)
    (hRid : R.claims.userID = uidTarget)
    (hnone : ∀ v ∈ s2.users, v.id = uidTarget → ¬ v.refreshToken = some R) :
    (RefreshTokenOp cfg tm s2 (.signed R) now2).1 = .error .unauthenticated := by
  cases hval : ValidateRefreshToken tm R now2 with
  | none => simp [RefreshTokenOp, hval]
  | some claims =>
    have hc : claims = R.claims := validateToken_some _ _ _ _ _ hval
    have hnf : onlyMatch (fun v => decide (v.id = claims.userID) &&
        decide (v.refreshToken = some R) && v.isActive) s2.users = .notFound := by
      apply onlyMatch_notFound_of
      intro v hv
      by_cases hvid : v.id = uidTarget
      · have hnr := hnone v hv hvid
        simp [hnr]
      · simp [hc, hRid, hvid]
    simp [RefreshTokenOp, hval, hnf]

/-! ### Claim C4 — successful password reset clears counters and sessions -/

/-- C4: a successful `ResetPassword(token, new)` leaves the matched account
    with failed-login counter zero, no lockout expiry, no reset token or
    expiry, reset attempts zero, and no stored refresh token or expiry; and
    every refresh token whose subject is that account subsequently fails
    `RefreshToken` with unauthenticated, because nothing in the store
    matches the presented token any more. -/
theorem c4_reset_clears_state (cfg : SecurityConfig) (pm : PasswordManager)
    (tm : TokenManager) (s : Store) (token newPassword : Str) (now : Int)
    (ip ua : Str) (u : User) (s2 : Store)
    (hfound : onlyMatch (fun v => decide (v.passwordResetToken = some token) &&
      v.isActive) s.users = .found u)
    (hreset : ResetPassword pm s token newPassword now ip ua = (.ok (), s2)) :
    (∃ u1 ∈ s2.users, u1.id = u.id ∧ u1.failedLoginAttempts = 0 ∧
      u1.accountLockedUntil = none ∧ u1.passwordResetToken = none ∧
      u1.passwordResetExpiresAt = none ∧ u1.passwordResetAttempts = 0 ∧
      u1.refreshToken = none ∧ u1.refreshTokenExpiresAt = none) ∧
    (∀ (R : SignedToken) (now2 : Int), R.claims.userID = u.id →
      (RefreshTokenOp cfg tm s2 (.signed R) now2).1 = .error .unauthenticated) := by
  have humem := (onlyMatch_found_mem _ _ _ hfound).1
  unfold ResetPassword at hreset
  split at hreset
  · simp at hreset
  split at hreset
  · simp at hreset
  split at hreset
  · simp at hreset
  split at hreset
  · rename_i heq
    rw [hfound] at heq
    cases heq
  · rename_i heq
    rw [hfound] at heq
    cases heq
  rename_i u1 heq
  rw [hfound] at heq
  cases heq
  split at hreset
  · simp at hreset
  split at hreset
  · simp at hreset
  rename_i h hh
  simp only [Prod.mk.injEq, true_and] at hreset
  subst hreset
  constructor
  · rw [logStr_users, ite_sentEmails_users, updateUser_users]
    refine ⟨_, exists_updated_mem s.users u _ humem rfl,
      ?_, ?_, ?_, ?_, ?_, ?_, ?_, ?_⟩ <;> rfl
  · intro R now2 hRid
    apply refresh_unauth_of_no_match cfg tm _ u.id R now2 hRid
    rw [logStr_users, ite_sentEmails_users, updateUser_users]
    intro v hv hvid
    obtain ⟨w, hw, rfl⟩ := List.mem_map.mp hv
    by_cases hwid : w.id = u.id
    · simp [hwid]
    · rw [if_neg (fun hc => hwid hc)] at hvid
      exact absurd hvid hwid

/-- C4 witness: the locked fixture account, reset with a valid token. -/
theorem c4_witness :
    (∃ u1 ∈ c4PostStore.users, u1.id = c4User.id ∧ u1.failedLoginAttempts = 0 ∧
      u1.accountLockedUntil = none ∧ u1.passwordResetToken = none ∧
      u1.passwordResetExpiresAt = none ∧ u1.passwordResetAttempts = 0 ∧
      u1.refreshToken = none ∧ u1.refreshTokenExpiresAt = none) ∧
    (∀ (R : SignedToken) (now2 : Int), R.claims.userID = c4User.id →
      (RefreshTokenOp sampleCfg sampleTm c4PostStore (.signed R) now2).1
        = .error .unauthenticated) :=
  c4_reset_clears_state sampleCfg NewPasswordManager sampleTm c4Store ("rtok".toList)
    ("NewPw0rd1".toList) 100 ("1.2.3.4".toList) ("ua".toList) c4User c4PostStore
    (by decide) (by decide)

/-! ### Claim C5 — refresh-token rotation is single-use -/

/-- C5: a successful `RefreshToken(R1)` stores a freshly minted refresh
    token — distinct from R1, because its token id is drawn beyond every
    id already stored — as the account's only stored refresh token, and a
    second `RefreshToken(R1)` returns unauthenticated at any later time:
    the presented token no longer equals the stored one. -/
theorem c5_refresh_rotation (cfg : SecurityConfig) (tm : TokenManager) (s : Store)
    (R1 : SignedToken) (now : Int) (out : RefreshOk) (s2 : Store)
    (hfresh : ∀ v ∈ s.users,
      v.refreshToken.all (fun t => decide (t.claims.jti < s.nonce)) = true)
    (h : RefreshTokenOp cfg tm s (.signed R1) now = (.ok out, s2)) :
    out.refreshTok ≠ R1 ∧
    (∃ u1 ∈ s2.users, u1.id = R1.claims.userID ∧
      u1.refreshToken = some out.refreshTok) ∧
    (∀ now3 : Int,
      (RefreshTokenOp cfg tm s2 (.signed R1) now3).1 = .error .unauthenticated) := by
  simp only [RefreshTokenOp] at h
  split at h
  · simp at h
  rename_i claims hval
  have hc : claims = R1.claims := validateToken_some _ _ _ _ _ hval
  subst hc
  split at h
  · simp at h
  · simp at h
  rename_i u heq
  have hmem := onlyMatch_found_mem _ _ _ heq
  have humem := hmem.1
  have hpred := hmem.2
  simp only [Bool.and_eq_true, decide_eq_true_eq] at hpred
  obtain ⟨⟨hid, hstored⟩, hact⟩ := hpred
  have hjti : R1.claims.jti < s.nonce := by
    have hf := hfresh u humem
    rw [hstored] at hf
    simpa using hf
  split at h
  · simp at h
  split at h
  · simp at h
  simp only [Prod.mk.injEq] at h
  obtain ⟨hout, hs2⟩ := h
  injection hout with hout3
  subst hout3
  subst hs2
  have hne : ¬ ((GenerateTokenPair tm u.id u.email u.username u.role now
      s.nonce (s.nonce + 1)).2.1 = R1) := by
    intro he
    have e2 : R1.claims.jti = s.nonce + 1 := by rw [← he]; rfl
    omega
  refine ⟨?_, ?_, ?_⟩
  · exact hne
  · rw [updateUser_users]
    refine ⟨_, exists_updated_mem s.users u _ humem rfl, ?_, ?_⟩
    · exact hid
    · rfl
  · intro now3
    apply refresh_unauth_of_no_match cfg tm _ R1.claims.userID R1 now3 rfl
    rw [updateUser_users]
    intro v hv hvid
    obtain ⟨w, hw, rfl⟩ := List.mem_map.mp hv
    by_cases hwid : w.id = u.id
    · simp [hwid, hne]
    · rw [if_neg (fun hc => hwid hc)] at hvid
      exact absurd (hvid.trans hid.symm) hwid

/-! ### Case-folding and validator lemmas for C6 -/

theorem toNat_ofNat_valid (n : Nat) (h : n < 55296) : (Char.ofNat n).toNat = n := by
  have hv : n.isValidChar := Or.inl h
  simp [Char.ofNat, hv, Char.toNat, Char.ofNatAux, UInt32.toNat, BitVec.toNat_ofNatLt]

theorem charToLower_charToUpper (c : Char) :
    charToLower (charToUpper c) = charToLower c := by
  unfold charToLower charToUpper
  by_cases h : 97 ≤ c.toNat ∧ c.toNat ≤ 122
  · have h1 : (Char.ofNat (c.toNat - 32)).toNat = c.toNat - 32 :=
      toNat_ofNat_valid _ (by omega)
    have h2 : 65 ≤ (Char.ofNat (c.toNat - 32)).toNat ∧
        (Char.ofNat (c.toNat - 32)).toNat ≤ 90 := by rw [h1]; omega
    have h3 : ¬ (65 ≤ c.toNat ∧ c.toNat ≤ 90) := by omega
    rw [if_pos h, if_pos h2, if_neg h3, h1]
    have h4 : c.toNat - 32 + 32 = c.toNat := by omega
    rw [h4, Char.ofNat_toNat]
  · rw [if_neg h]

theorem strToLower_strToUpper (s : Str) : strToLower (strToUpper s) = strToLower s := by
  unfold strToLower strToUpper
  rw [List.map_map]
  have h : charToLower ∘ charToUpper = charToLower := funext charToLower_charToUpper
  rw [h]

theorem charToLower_eq_at (c : Char) : charToLower c = '@' ↔ c = '@' := by
  constructor
  · intro h
    unfold charToLower at h
    split at h
    · rename_i hc
      have h2 := congrArg Char.toNat h
      rw [toNat_ofNat_valid _ (by omega)] at h2
      have h64 : ('@' : Char).toNat = 64 := rfl
      rw [h64] at h2
      omega
    · exact h
  · intro h
    subst h
    rfl

theorem mem_at_strToLower (s : Str) : '@' ∈ strToLower s ↔ '@' ∈ s := by
  unfold strToLower
  rw [List.mem_map]
  constructor
  · rintro ⟨c, hc, hfc⟩
    rw [charToLower_eq_at] at hfc
    subst hfc
    exact hc
  · intro h
    exact ⟨'@', h, rfl⟩

theorem validEmail_at_mem (e : Str) (h : ValidateEmail e = true) : '@' ∈ e := by
  unfold ValidateEmail at h
  rw [Bool.and_eq_true] at h
  obtain ⟨h1, h2⟩ := h
  have hlen := splitOnChar_length '@' e
  cases hsp : splitOnChar '@' e with
  | nil => rw [hsp] at h1; cases h1
  | cons a t =>
    cases t with
    | nil => rw [hsp] at h1; cases h1
    | cons b t2 =>
      cases t2 with
      | nil =>
        rw [hsp] at hlen
        simp only [List.length_cons, List.length_nil] at hlen
        have hc : 0 < e.count '@' := by omega
        exact List.count_pos_iff.mp hc
      | cons c t3 => rw [hsp] at h1; cases h1

theorem validUsername_no_at (u : Str) (h : ValidateUsername u = true) : '@' ∉ u := by
  unfold ValidateUsername at h
  rw [Bool.and_eq_true, Bool.and_eq_true] at h
  obtain ⟨⟨h3, h50⟩, hall⟩ := h
  intro hmem
  have hch := List.all_eq_true.mp hall _ hmem
  exact absurd hch (by decide)

theorem validUsername_ne_nil (u : Str) (h : ValidateUsername u = true) : u ≠ [] := by
  unfold ValidateUsername at h
  rw [Bool.and_eq_true, Bool.and_eq_true] at h
  obtain ⟨⟨h3, h50⟩, hall⟩ := h
  intro hnil
  subst hnil
  simp at h3

theorem map_id_of (l : List User) (f : User → User) (h : ∀ w ∈ l, f w = w) :
    l.map f = l := by
  induction l with
  | nil => rfl
  | cons x xs ih =>
    rw [List.map_cons, h x (by simp), ih (fun w hw => h w (by simp [hw]))]

theorem update_append_fresh (l : List User) (nu u1 : User) (hid : nu.id = u1.id)
    (hold : ∀ w ∈ l, w.id ≠ u1.id) :
    (l ++ [nu]).map (fun v => if v.id = u1.id then u1 else v) = l ++ [u1] := by
  rw [List.map_append]
  congr 1
  · exact map_id_of l _ (fun w hw => if_neg (hold w hw))
  · simp [hid]

theorem find_append_fresh (l : List User) (u1 : User) (uid : Nat) (hid : u1.id = uid)
    (hold : ∀ w ∈ l, w.id ≠ uid) :
    (l ++ [u1]).find? (fun u => decide (u.id = uid)) = some u1 := by
  induction l with
  | nil => simp [List.find?, hid]
  | cons x xs ih =>
    have hx : (decide (x.id = uid)) = false := by
      simp [hold x (by simp)]
    rw [List.cons_append]
    rw [List.find?_cons_of_neg _ (by simp [hold x (by simp)])]
    exact ih (fun w hw => hold w (by simp [hw]))

/-- A freshly minted access token validates under `ValidateAccessToken` at
    its issue time (for a non-negative TTL) and decodes both `UserID` and
    `Subject` to the minting account. -/
theorem validate_minted_access (tm : TokenManager) (uid : Nat) (em un rl : Str)
    (now : Int) (jti : Nat) (hdur : 0 ≤ tm.accessDuration) :
    ValidateAccessToken tm
      (generateToken tm uid em un rl ("access".toList) tm.accessSecret
        tm.accessDuration now jti) now
      = some (generateToken tm uid em un rl ("access".toList) tm.accessSecret
        tm.accessDuration now jti).claims ∧
    (generateToken tm uid em un rl ("access".toList) tm.accessSecret
        tm.accessDuration now jti).claims.userID = uid ∧
    (generateToken tm uid em un rl ("access".toList) tm.accessSecret
        tm.accessDuration now jti).claims.subject = uid := by
  refine ⟨?_, rfl, rfl⟩
  have hexp : ¬ (now + tm.accessDuration < now) := by omega
  simp [ValidateAccessToken, validateToken, generateToken, hmacAlgs, hexp]

/-- When the case-folded identifier matches exactly one row, that row is
    active and unlocked, and the password digest matches, `Login` succeeds
    for that row, returning an access token minted with the store's current
    nonce. -/
theorem login_success_of_unique (cfg : SecurityConfig) (tm : TokenManager) (s1 : Store)
    (reqEmail p : Str) (now : Int) (ip ua : Str) (uF : User)
    (hne : reqEmail ≠ []) (hpne : p ≠ [])
    (hfilter : s1.users.filter (fun u => decide (u.email = strToLower reqEmail) ||
        decide (u.username = strToLower reqEmail)) = [uF])
    (hlock : uF.accountLockedUntil = none)
    (hact : uF.isActive = true)
    (hcmp : ComparePassword uF.passwordHash p = true) :
    ∃ a2 rt2 ttl2 v2 s3,
      Login cfg tm s1 reqEmail p now ip ua = (.ok uF.id a2 rt2 ttl2 v2, s3) ∧
      a2 = generateToken tm uF.id uF.email uF.username uF.role ("access".toList)
        tm.accessSecret tm.accessDuration now s1.nonce := by
  have honly : onlyMatch (fun u => decide (u.email = strToLower reqEmail) ||
      decide (u.username = strToLower reqEmail)) s1.users = .found uF := by
    unfold onlyMatch
    rw [hfilter]
  unfold Login
  rw [if_neg (by simp [hne, hpne])]
  simp only [honly, hlock]
  unfold loginActive
  rw [if_neg (by simp [hact]), if_neg (by simp [hcmp])]
  exact ⟨_, _, _, _, _, rfl, rfl⟩

theorem send_fresh_shape (l : List User) (u1 : User) (s3 : Store) (uid : Nat)
    (now : Int) (ip ua : Str)
    (hus : s3.users = l ++ [u1]) (hold : ∀ w ∈ l, w.id ≠ u1.id)
    (huid : u1.id = uid) (hver : u1.emailVerified = false)
    (hatt : u1.emailVerificationAttempts = 0) :
    ∃ uF s4, SendVerificationEmailSvc s3 uid now ip ua = (Except.ok (), s4) ∧
      s4.users = l ++ [uF] ∧ uF.id = u1.id ∧ uF.email = u1.email ∧
      uF.username = u1.username ∧ uF.passwordHash = u1.passwordHash ∧
      uF.isActive = u1.isActive ∧ uF.accountLockedUntil = u1.accountLockedUntil := by
  have hfind : lookupById s3 uid = some u1 := by
    unfold lookupById
    rw [hus]
    exact find_append_fresh l u1 uid huid (fun w hw => huid ▸ hold w hw)
  have h1 : SendVerificationEmailSvc s3 uid now ip ua =
      issueVerificationToken s3 u1 now ip ua := by
    unfold SendVerificationEmailSvc
    simp only [hfind]
    rw [if_neg (by simp [hver]), if_neg (by rw [hatt]; decide)]
  refine ⟨{ u1 with
      emailVerificationToken := some (genToken s3.nonce)
      emailVerificationExpiresAt := some (now + emailVerificationTokenDuration)
      emailVerificationAttempts := u1.emailVerificationAttempts + 1 }, _,
    h1.trans rfl, ?_, rfl, rfl, rfl, rfl, rfl, rfl⟩
  rw [logStr_users]
  show (updateUser { s3 with nonce := s3.nonce + 1 } _).users = _
  rw [updateUser_users]
  show s3.users.map _ = _
  rw [hus]
  exact update_append_fresh l u1 _ rfl (fun w hw => hold w hw)

theorem register_success_users (cfg : SecurityConfig) (tm : TokenManager)
    (pm : PasswordManager) (s : Store) (req : RegisterRequest) (now : Int)
    (ip ua : Str)
    (hemail : ValidateEmail req.email = true)
    (husername : ValidateUsername req.username = true)
    (hpw : ¬ req.password = [])
    (hnodup : s.users.any (fun u => decide (u.email = strToLower req.email) ||
      decide (u.username = strToLower req.username)) = false)
    (hvp : ValidatePassword pm req.password = none)
    (hfresh : ∀ w ∈ s.users, w.id < s.nonce) :
    ∃ a rt ttl v s2 uF,
      Register cfg tm pm s req now ip ua = (.ok s.nonce a rt ttl v, s2) ∧
      s2.users = s.users ++ [uF] ∧
      uF.id = s.nonce ∧ uF.email = strToLower req.email ∧
      uF.username = strToLower req.username ∧
      uF.passwordHash = .bcrypt 12 req.password ∧
      uF.isActive = true ∧ uF.accountLockedUntil = none := by
  have hH : HashPassword pm req.password = .ok (.bcrypt 12 req.password) := by
    unfold HashPassword
    rw [hvp]
  have hR : Register cfg tm pm s req now ip ua =
      (if req.sendVerificationEmail || cfg.requireEmailVerification then
        match SendVerificationEmailSvc (regStore3 cfg tm s req now) s.nonce now ip ua with
        | (.ok _, s4) => (.ok s.nonce (regPair tm s req now).1 (regPair tm s req now).2.1
            (regPair tm s req now).2.2 true, s4)
        | (.error _, s4) => (.ok s.nonce (regPair tm s req now).1 (regPair tm s req now).2.1
            (regPair tm s req now).2.2 false, s4)
       else (.ok s.nonce (regPair tm s req now).1 (regPair tm s req now).2.1
            (regPair tm s req now).2.2 false, regStore3 cfg tm s req now)) := by
    unfold Register
    rw [if_neg (not_not_intro hemail), if_neg (not_not_intro husername), if_neg hpw,
        if_neg (by simp [hnodup])]
    simp only [hH]
    rfl
  have hold1 : ∀ w ∈ s.users, w.id ≠ (regInserted cfg tm s req now).id :=
    fun w hw => Nat.ne_of_lt (hfresh w hw)
  have hS3 : (regStore3 cfg tm s req now).users
      = s.users ++ [regInserted cfg tm s req now] := by
    unfold regStore3
    rw [updateUser_users]
    show (s.users ++ [regNewUser cfg s req now]).map _ = _
    exact update_append_fresh s.users (regNewUser cfg s req now)
      (regInserted cfg tm s req now) rfl hold1
  by_cases hsend : (req.sendVerificationEmail || cfg.requireEmailVerification) = true
  · obtain ⟨uF, s4, hsvc, hus4, h1, h2, h3, h4, h5, h6⟩ :=
      send_fresh_shape s.users (regInserted cfg tm s req now)
        (regStore3 cfg tm s req now) s.nonce now ip ua hS3 hold1 rfl rfl rfl
    have heq : Register cfg tm pm s req now ip ua
        = (.ok s.nonce (regPair tm s req now).1 (regPair tm s req now).2.1
            (regPair tm s req now).2.2 true, s4) := by
      rw [hR, if_pos hsend, hsvc]
    exact ⟨_, _, _, true, s4, uF, heq, hus4, h1.trans rfl, h2.trans rfl, h3.trans rfl,
      h4.trans rfl, h5.trans rfl, h6.trans rfl⟩
  · have heq : Register cfg tm pm s req now ip ua
        = (.ok s.nonce (regPair tm s req now).1 (regPair tm s req now).2.1
            (regPair tm s req now).2.2 false, regStore3 cfg tm s req now) := by
      rw [hR, if_neg hsend]
    exact ⟨_, _, _, false, regStore3 cfg tm s req now, regInserted cfg tm s req now,
      heq, hS3, rfl, rfl, rfl, rfl, rfl, rfl⟩

/-- Continuation of C6: once registration has appended a fresh row for the
    case-folded identifiers, logging in with the upper-cased email or the
    raw username reaches exactly that row and succeeds, and the returned
    access token decodes the new account's id. -/
theorem c6_login_part (cfg : SecurityConfig) (tm : TokenManager) (s : Store)
    (req : RegisterRequest) (s2 : Store) (uF : User) (uid : Nat)
    (now2 now3 : Int) (ip2 ua2 : Str)
    (hdur : 0 ≤ tm.accessDuration)
    (hatmem : '@' ∈ req.email)
    (hnoat : '@' ∉ req.username)
    (husername : ValidateUsername req.username = true)
    (hpne : req.password ≠ [])
    (hdup : ∀ w ∈ s.users, ¬ w.email = strToLower req.email ∧
      ¬ w.username = strToLower req.username)
    (hwf : ∀ w ∈ s.users, '@' ∈ w.email ∧ '@' ∉ w.username)
    (hus : s2.users = s.users ++ [uF])
    (hfid : uF.id = uid)
    (hfe : uF.email = strToLower req.email)
    (hfu : uF.username = strToLower req.username)
    (hfh : uF.passwordHash = .bcrypt 12 req.password)
    (hfa : uF.isActive = true)
    (hfl : uF.accountLockedUntil = none) :
    (∃ a2 rt2 ttl2 v2 s3,
      Login cfg tm s2 (strToUpper req.email) req.password now2 ip2 ua2
        = (.ok uid a2 rt2 ttl2 v2, s3) ∧
      ∃ c, ValidateAccessToken tm a2 now2 = some c ∧
        c.userID = uid ∧ c.subject = uid) ∧
    (∃ a2 rt2 ttl2 v2 s3,
      Login cfg tm s2 req.username req.password now3 ip2 ua2
        = (.ok uid a2 rt2 ttl2 v2, s3) ∧
      ∃ c, ValidateAccessToken tm a2 now3 = some c ∧
        c.userID = uid ∧ c.subject = uid) := by
  have hEne : req.email ≠ [] := List.ne_nil_of_mem hatmem
  have hneE : strToUpper req.email ≠ [] := by
    intro hn
    exact hEne (List.map_eq_nil_iff.mp hn)
  have hne2 : req.username ≠ [] := validUsername_ne_nil _ husername
  have hlowat : '@' ∈ strToLower req.email := (mem_at_strToLower _).mpr hatmem
  have hlownoat : '@' ∉ strToLower req.username :=
    fun hmem => hnoat ((mem_at_strToLower _).mp hmem)
  have hcmp : ComparePassword uF.passwordHash req.password = true := by
    rw [hfh]
    simp [ComparePassword]
  constructor
  · -- Login with upper-cased email
    have hfilter1 : s2.users.filter (fun u =>
        decide (u.email = strToLower (strToUpper req.email)) ||
        decide (u.username = strToLower (strToUpper req.email))) = [uF] := by
      rw [hus, List.filter_append]
      have hnil : s.users.filter (fun u =>
          decide (u.email = strToLower (strToUpper req.email)) ||
          decide (u.username = strToLower (strToUpper req.email))) = [] := by
        apply List.filter_eq_nil_iff.mpr
        intro w hw
        simp only [strToLower_strToUpper, Bool.or_eq_true, decide_eq_true_eq]
        push_neg
        refine ⟨(hdup w hw).1, fun heq => absurd (heq ▸ hlowat) (hwf w hw).2⟩
      have hone : List.filter (fun u =>
          decide (u.email = strToLower (strToUpper req.email)) ||
          decide (u.username = strToLower (strToUpper req.email))) [uF] = [uF] := by
        simp [strToLower_strToUpper, hfe]
      rw [hnil, hone, List.nil_append]
    obtain ⟨a2, rt2, ttl2, v2, s3, hlog, hagen⟩ :=
      login_success_of_unique cfg tm s2 (strToUpper req.email) req.password now2
        ip2 ua2 uF hneE hpne hfilter1 hfl hfa hcmp
    rw [hfid] at hlog
    obtain ⟨hv1, hv2, hv3⟩ :=
      validate_minted_access tm uF.id uF.email uF.username uF.role now2 s2.nonce hdur
    exact ⟨a2, rt2, ttl2, v2, s3, hlog,
      ⟨_, by rw [hagen]; exact hv1, hv2.trans hfid, hv3.trans hfid⟩⟩
  · -- Login with the raw username
    have hfilter2 : s2.users.filter (fun u =>
        decide (u.email = strToLower req.username) ||
        decide (u.username = strToLower req.username)) = [uF] := by
      rw [hus, List.filter_append]
      have hnil : s.users.filter (fun u =>
          decide (u.email = strToLower req.username) ||
          decide (u.username = strToLower req.username)) = [] := by
        apply List.filter_eq_nil_iff.mpr
        intro w hw
        simp only [Bool.or_eq_true, decide_eq_true_eq]
        push_neg
        refine ⟨fun heq => absurd (heq ▸ (hwf w hw).1) hlownoat, (hdup w hw).2⟩
      have hone : List.filter (fun u =>
          decide (u.email = strToLower req.username) ||
          decide (u.username = strToLower req.username)) [uF] = [uF] := by
        simp [hfu]
      rw [hnil, hone, List.nil_append]
    obtain ⟨a2, rt2, ttl2, v2, s3, hlog, hagen⟩ :=
      login_success_of_unique cfg tm s2 req.username req.password now3
        ip2 ua2 uF hne2 hpne hfilter2 hfl hfa hcmp
    rw [hfid] at hlog
    obtain ⟨hv1, hv2, hv3⟩ :=
      validate_minted_access tm uF.id uF.email uF.username uF.role now3 s2.nonce hdur
    exact ⟨a2, rt2, ttl2, v2, s3, hlog,
      ⟨_, by rw [hagen]; exact hv1, hv2.trans hfid, hv3.trans hfid⟩⟩

/-- C6: for every email, username and policy-satisfying password for which
    `Register` succeeds (on a well-formed store: emails contain an `'@'`,
    usernames do not, ids are below the id counter), a subsequent `Login`
    with the upper-cased email, or with the raw username, and the same
    password succeeds for the new account, and `ValidateAccessToken` on the
    returned access token decodes both `UserID` and `Subject` equal to the
    new account's id. -/
theorem c6_register_then_login (cfg : SecurityConfig) (tm : TokenManager)
    (pm : PasswordManager) (s : Store) (req : RegisterRequest)
    (now now2 now3 : Int) (ip ua ip2 ua2 : Str) (uid : Nat)
    (a rt : SignedToken) (ttl : Int) (v : Bool) (s2 : Store)
    (hdur : 0 ≤ tm.accessDuration)
    (hwf : ∀ w ∈ s.users, '@' ∈ w.email ∧ '@' ∉ w.username ∧ w.id < s.nonce)
    (hreg : Register cfg tm pm s req now ip ua = (.ok uid a rt ttl v, s2)) :
    (∃ a2 rt2 ttl2 v2 s3,
      Login cfg tm s2 (strToUpper req.email) req.password now2 ip2 ua2
        = (.ok uid a2 rt2 ttl2 v2, s3) ∧
      ∃ c, ValidateAccessToken tm a2 now2 = some c ∧
        c.userID = uid ∧ c.subject = uid) ∧
    (∃ a2 rt2 ttl2 v2 s3,
      Login cfg tm s2 req.username req.password now3 ip2 ua2
        = (.ok uid a2 rt2 ttl2 v2, s3) ∧
      ∃ c, ValidateAccessToken tm a2 now3 = some c ∧
        c.userID = uid ∧ c.subject = uid) := by
  have hemail : ValidateEmail req.email = true := by
    by_contra h
    unfold Register at hreg
    rw [if_pos h] at hreg
    simp at hreg
  have husername : ValidateUsername req.username = true := by
    by_contra h
    unfold Register at hreg
    rw [if_neg (not_not_intro hemail), if_pos h] at hreg
    simp at hreg
  have hpw : ¬ req.password = [] := by
    intro h
    unfold Register at hreg
    rw [if_neg (not_not_intro hemail), if_neg (not_not_intro husername),
        if_pos h] at hreg
    simp at hreg
  have hnodup : s.users.any (fun u => decide (u.email = strToLower req.email) ||
      decide (u.username = strToLower req.username)) = false := by
    cases hA : s.users.any (fun u => decide (u.email = strToLower req.email) ||
        decide (u.username = strToLower req.username)) with
    | false => rfl
    | true =>
      unfold Register at hreg
      rw [if_neg (not_not_intro hemail), if_neg (not_not_intro husername),
          if_neg hpw, if_pos hA] at hreg
      simp at hreg
  have hvp : ValidatePassword pm req.password = none := by
    cases hv : ValidatePassword pm req.password with
    | none => rfl
    | some e =>
      have hH : HashPassword pm req.password = .error e := by
        unfold HashPassword
        rw [hv]
      unfold Register at hreg
      rw [if_neg (not_not_intro hemail), if_neg (not_not_intro husername),
          if_neg hpw, if_neg (by simp [hnodup]), hH] at hreg
      simp at hreg
  obtain ⟨a', rt', ttl', v', s2', uF, hR, hus, hfid, hfe, hfu, hfh, hfa, hfl⟩ :=
    register_success_users cfg tm pm s req now ip ua hemail husername hpw hnodup hvp
      (fun w hw => (hwf w hw).2.2)
  rw [hR] at hreg
  simp only [Prod.mk.injEq, RegisterOut.ok.injEq] at hreg
  obtain ⟨⟨huid, -, -, -, -⟩, hs2⟩ := hreg
  subst hs2
  have hdup : ∀ w ∈ s.users, ¬ w.email = strToLower req.email ∧
      ¬ w.username = strToLower req.username := by
    intro w hw
    have h1 := List.any_eq_false.mp hnodup w hw
    simp only [Bool.or_eq_true, decide_eq_true_eq, not_or] at h1
    exact h1
  exact c6_login_part cfg tm s req s2' uF uid now2 now3 ip2 ua2 hdur
    (validEmail_at_mem _ hemail) (validUsername_no_at _ husername) husername hpw hdup
    (fun w hw => ⟨(hwf w hw).1, (hwf w hw).2.1⟩) hus (hfid.trans huid) hfe hfu hfh hfa hfl

/-- C6 witness: registering `c6Req` (email `Al@ex.com`, password
    `Password1`) on the empty store, then logging in with the upper-cased
    email at time 10 and with the raw username at time 20, both succeed for
    account 0 and the access tokens decode subject 0. -/
theorem c6_witness :
    (∃ a2 rt2 ttl2 v2 s3,
      Login sampleCfg sampleTm c6PostStore (strToUpper c6Req.email) c6Req.password 10 [] []
        = (.ok 0 a2 rt2 ttl2 v2, s3) ∧
      ∃ c, ValidateAccessToken sampleTm a2 10 = some c ∧
        c.userID = 0 ∧ c.subject = 0) ∧
    (∃ a2 rt2 ttl2 v2 s3,
      Login sampleCfg sampleTm c6PostStore c6Req.username c6Req.password 20 [] []
        = (.ok 0 a2 rt2 ttl2 v2, s3) ∧
      ∃ c, ValidateAccessToken sampleTm a2 20 = some c ∧
        c.userID = 0 ∧ c.subject = 0) :=
  c6_register_then_login sampleCfg sampleTm NewPasswordManager emptyStore c6Req 0 10 20
    [] [] [] [] 0 c6Pair.1 c6Pair.2.1 c6Pair.2.2 false c6PostStore
    (by decide) (by decide) (by decide)

/-- C5 witness: the fixture user rotates R1 into a fresh pair, after which
    R1 is dead. -/
theorem c5_witness :
    c5Out.refreshTok ≠ c5R1 ∧
    (∃ u1 ∈ c5PostStore.users, u1.id = c5R1.claims.userID ∧
      u1.refreshToken = some c5Out.refreshTok) ∧
    (∀ now3 : Int,
      (RefreshTokenOp sampleCfg sampleTm c5PostStore (.signed c5R1) now3).1
        = .error .unauthenticated) :=
  c5_refresh_rotation sampleCfg sampleTm c5Store c5R1 10 c5Out c5PostStore
    (by decide) (by decide)

/-- C10: `GetMe`, `UpdateProfile` and `ChangePassword` call
    `uuid.MustParse` on the raw `user_id` context string (which the
    authentication interceptor stores unvalidated from the token claims):
    whenever that string does not parse as a uuid, the handlers panic
    instead of returning a typed error.  For `ChangePassword` the panic is
    reached once both password fields are non-empty. -/
theorem c10_mustparse_panics (pm : PasswordManager) (s : Store) (ctx : Ctx)
    (uidStr : Str) (req : UpdateProfileRequest) (req2 : ChangePasswordRequest)
    (now : Int)
    (hctx : ctx.userID = some uidStr)
    (hparse : parseUUID uidStr = none)
    (hcur : ¬ req2.currentPassword = [])
    (hnew : ¬ req2.newPassword = []) :
    GetMe s ctx = .panicked ∧
    (UpdateProfile s ctx req).1 = .panicked ∧
    (ChangePassword pm s ctx req2 now).1 = .panicked := by
  refine ⟨?_, ?_, ?_⟩ <;>
    simp [GetMe, UpdateProfile, ChangePassword, hctx, hparse, hcur, hnew]

/-- C10 witness: the context value `not-a-uuid` panics all three
    handlers. -/
theorem c10_witness :
    GetMe emptyStore c10Ctx = .panicked ∧
    (UpdateProfile emptyStore c10Ctx ⟨[], [], [], true, true⟩).1 = .panicked ∧
    (ChangePassword NewPasswordManager emptyStore c10Ctx
        ⟨"Password1".toList, "NewPw0rd1".toList, false⟩ 0).1 = .panicked :=
  c10_mustparse_panics NewPasswordManager emptyStore c10Ctx ("not-a-uuid".toList)
    ⟨[], [], [], true, true⟩ ⟨"Password1".toList, "NewPw0rd1".toList, false⟩ 0
    rfl (by decide) (by decide) (by decide)

end Taskmaster
